import Mathlib

/-!
# p7v: streaming PKCS#7 verify-decode pipeline

A shallow embedding of `src/p7v.c`.  The NSS/NSPR/libc calls are external
collaborators; every value they hand back to p7v is an explicit input of the
model (fields of `NSSCMSMessage`, `Read` and `Run`), and every call p7v makes
is recorded, in program order, in a list of `Effect`s.  The `TRACEn` macros
come from `trace.h`, which only logs, and are left out.
-/

namespace P7V

/-! ## Data model -/

/-- The C enum `p7v_result_t` (p7v.c:50-61).  C enumerators are integers and
`main` keeps the value in an `int`, so the type is `Int`. -/
abbrev p7v_result_t := Int

def P7V_OK : p7v_result_t := 0
def P7V_INPUT_OPEN_FAILED : p7v_result_t := 1
def P7V_OUTPUT_OPEN_FAILED : p7v_result_t := 2
def P7V_OUTPUT_WRITE_FAILED : p7v_result_t := 3
def P7V_VERIFICATION_FAILED : p7v_result_t := 4
def P7V_NSS_INIT_FAILED : p7v_result_t := 5
def P7V_CMS_DECODER_START_FAILED : p7v_result_t := 6
def P7V_CMS_DECODER_UPDATE_FAILED : p7v_result_t := 7
def P7V_CMS_DECODER_FINISH_FAILED : p7v_result_t := 8
def P7V_CMS_CERT_IMPORT_FAILED : p7v_result_t := 9

/-- The NSS status type `SECStatus` (seccomon.h): the three values NSS defines. -/
inductive SECStatus where
  | SECWouldBlock
  | SECFailure
  | SECSuccess
  deriving DecidableEq

/-- The NSS type `SECOidTag`, an enumeration of object identifiers. -/
abbrev SECOidTag := Nat

/-- The tag of PKCS#7 signed data; 26 is its position in the enumeration of
NSS's `secoidt.h`.  No proof depends on the number. -/
def SEC_OID_PKCS7_SIGNED_DATA : SECOidTag := 26

/-- A C `FILE *` as far as p7v tells streams apart: the standard streams and
what `fopen` returned for a path. -/
inductive FILE where
  | stdin
  | stdout
  | stderr
  | opened (path : String)
  deriving DecidableEq

/-- The struct `p7v_decoder_t` (p7v.c:63-72).  Pointers are numbers, 0 is the
null pointer. -/
structure p7v_decoder_t where
  p_arena : Nat
  output : FILE
  write_error : Int
  p_context : Nat
  deriving DecidableEq

/-- What NSS answers for one signer: the status returned by
`NSS_CMSSignedData_VerifySignerInfo`, the value of
`NSS_CMSSignerInfo_GetVerificationStatus`, and the common name
(`none` for a null pointer). -/
structure NSSCMSSignerInfo where
  verify : SECStatus
  verif_status : Nat
  common_name : Option String
  deriving DecidableEq

/-- What NSS answers for one signed-data block: the status returned by
`NSS_CMSSignedData_ImportCerts` and the signer infos, in index order
(`NSS_CMSSignedData_SignerInfoCount` is the length of the list). -/
structure NSSCMSSignedData where
  import_certs : SECStatus
  signer_infos : List NSSCMSSignerInfo
  deriving DecidableEq

/-- One content level: the value of `NSS_CMSContentInfo_GetContentTypeTag` and
what `NSS_CMSContentInfo_GetContent` points to, read as signed data. -/
structure NSSCMSContentInfo where
  type_tag : SECOidTag
  content : NSSCMSSignedData
  deriving DecidableEq

/-- A decoded message: the value of `NSS_CMSMessage_IsSigned` and the content
levels, outer to inner (`NSS_CMSMessage_ContentLevelCount` is the length). -/
structure NSSCMSMessage where
  is_signed : Bool
  levels : List NSSCMSContentInfo
  deriving DecidableEq

/-- The lines p7v prints on the diagnostic stream. -/
inductive Diag where
  | version
  | failed_open_input
  | opened_reading
  | failed_open_output
  | opened_writing
  | init_failed (result : Int)
  | initialized
  | setup_failed (result : Int)
  | signed_by (cn : String)
  | verification_skipped
  | data_extracted
  | exiting_status (result : Int)
  deriving DecidableEq

/-- The calls p7v makes to its collaborators.  Levels and signers are named by
their index, reads and decoder updates by the iteration of the read loop. -/
inductive Effect where
  | fprintf_stderr (msg : Diag)
  | fopen (path : String)
  | PR_Init
  | NSS_Init
  | PORT_NewArena
  | NSS_CMSDecoder_Start (arena : Nat)
  | fread (n : Nat)
  | NSS_CMSDecoder_Update (n : Nat)
  | fwrite (len : Nat)
  | fclose (f : FILE)
  | NSS_CMSDecoder_Finish
  | NSS_CMSMessage_IsSigned
  | NSS_CMSMessage_ContentLevelCount
  | NSS_CMSMessage_ContentLevel (i : Nat)
  | NSS_CMSContentInfo_GetContentTypeTag (i : Nat)
  | NSS_CMSContentInfo_GetContent (i : Nat)
  | NSS_CMSSignedData_ImportCerts (i : Nat)
  | NSS_CMSSignedData_SignerInfoCount (i : Nat)
  | NSS_CMSSignedData_GetSignerInfo (i signer : Nat)
  | NSS_CMSSignedData_VerifySignerInfo (i signer : Nat)
  | NSS_CMSSignerInfo_GetVerificationStatus (i signer : Nat)
  | NSS_CMSSignerInfo_GetSignerCommonName (i signer : Nat)
  | PORT_Free
  | NSS_CMSMessage_Destroy
  | PORT_FreeArena (arena : Nat)
  | NSS_Shutdown
  | unlink (path : Option String)
  deriving DecidableEq

/-! ## Operations -/

/-- The function `init` (p7v.c:79-102), given the status `NSS_Init` returns. -/
def init (sts : SECStatus) : p7v_result_t × List Effect :=
  let result := if sts = SECStatus.SECSuccess then P7V_OK else P7V_NSS_INIT_FAILED
  (result, [Effect.PR_Init, Effect.NSS_Init])

/-- The C library's `fwrite (buf, size, nmemb, stream)` on a stream that takes
`accepted` bytes: the number of complete items written, and 0 when `size` or
`nmemb` is 0 (ISO C 7.21.8.2). -/
def fwrite (size nmemb accepted : Nat) : Nat :=
  if size = 0 ∨ nmemb = 0 then 0 else min nmemb (accepted / size)

/-- The callback `content_cb` (p7v.c:114-130): `len` bytes are handed to the
sink, which takes `accepted` of them. -/
def content_cb (p_decoder : p7v_decoder_t) (len accepted : Nat) :
    p7v_decoder_t × List Effect :=
  let written := fwrite len 1 accepted
  if written ≠ 1 then
    (p7v_decoder_t.mk p_decoder.p_arena p_decoder.output 1 p_decoder.p_context,
      [Effect.fwrite len])
  else
    (p_decoder, [Effect.fwrite len])

/-- The function `decoder_setup` (p7v.c:140-170).  `arena` and `ctx` are what
`PORT_NewArena` and `NSS_CMSDecoder_Start` return; `uninit` is the
indeterminate value the local `result` holds before any assignment, which is
what the function returns when the arena is null. -/
def decoder_setup (uninit : p7v_result_t) (arena ctx : Nat) (output : FILE)
    (p_decoder : p7v_decoder_t) : p7v_result_t × p7v_decoder_t × List Effect :=
  let d1 := p7v_decoder_t.mk arena p_decoder.output p_decoder.write_error p_decoder.p_context
  if arena ≠ 0 then
    if ctx = 0 then
      (P7V_CMS_DECODER_START_FAILED, d1,
        [Effect.PORT_NewArena, Effect.NSS_CMSDecoder_Start arena])
    else
      (P7V_OK, p7v_decoder_t.mk arena output 0 ctx,
        [Effect.PORT_NewArena, Effect.NSS_CMSDecoder_Start arena])
  else
    (uninit, d1, [Effect.PORT_NewArena])

/-- The content callbacks the decoder engine makes, one after the other, during
one `NSS_CMSDecoder_Update`: each entry is `(len, accepted)`. -/
def run_callbacks : p7v_decoder_t → List (Nat × Nat) → p7v_decoder_t × List Effect
  | d, [] => (d, [])
  | d, cb :: rest =>
    let r1 := content_cb d cb.1 cb.2
    let r2 := run_callbacks r1.1 rest
    (r2.1, r1.2 ++ r2.2)

/-- One iteration of the read loop of `main`, as the environment decides it:
the value `fread` returns, the status `NSS_CMSDecoder_Update` returns, and the
content callbacks the engine makes during that update. -/
structure Read where
  r : Int
  update : SECStatus
  writes : List (Nat × Nat)
  deriving DecidableEq

/-- The function `decoder_feed` (p7v.c:181-201), called in iteration `n`.  The
descriptor is passed by value, but the engine was started with a pointer to
the descriptor of `main`, so the callbacks act on that one: it is returned. -/
def decoder_feed (n : Nat) (decoder : p7v_decoder_t) (c : Read) :
    p7v_result_t × p7v_decoder_t × List Effect :=
  let cbs := run_callbacks decoder c.writes
  let result := if c.update = SECStatus.SECSuccess then P7V_OK
    else P7V_CMS_DECODER_UPDATE_FAILED
  (result, cbs.1, Effect.NSS_CMSDecoder_Update n :: cbs.2)

/-- The function `verify_signer` (p7v.c:211-263) for signer `signer` of the
signed data at level `i`. -/
def verify_signer (verbose : Int) (i signer : Nat) (p_signer_info : NSSCMSSignerInfo) :
    p7v_result_t × List Effect :=
  let sts := p_signer_info.verify
  let calls := [Effect.NSS_CMSSignedData_GetSignerInfo i signer,
    Effect.NSS_CMSSignedData_VerifySignerInfo i signer,
    Effect.NSS_CMSSignerInfo_GetVerificationStatus i signer]
  let shown :=
    if verbose ≠ 0 then
      Effect.NSS_CMSSignerInfo_GetSignerCommonName i signer ::
        (match p_signer_info.common_name with
         | none => [Effect.fprintf_stderr (Diag.signed_by "")]
         | some cn => [Effect.fprintf_stderr (Diag.signed_by cn), Effect.PORT_Free])
    else []
  let result := if sts ≠ SECStatus.SECSuccess then P7V_VERIFICATION_FAILED else P7V_OK
  (result, calls ++ shown)

/-- The `for` loop of `verify_signers` (p7v.c:298-301) from index `signer` on,
over the signer infos not yet visited.  A loop that runs to its end leaves
`result` at `P7V_OK`: its initial value, or the last signer's result. -/
def verify_signers_loop (verbose : Int) (i : Nat) :
    Nat → List NSSCMSSignerInfo → p7v_result_t × List Effect
  | _, [] => (P7V_OK, [])
  | signer, si :: rest =>
    let r1 := verify_signer verbose i signer si
    if r1.1 ≠ P7V_OK then r1
    else
      let r2 := verify_signers_loop verbose i (signer + 1) rest
      (r2.1, r1.2 ++ r2.2)

/-- The function `verify_signers` (p7v.c:272-306) on the signed data of
level `i`. -/
def verify_signers (verbose : Int) (i : Nat) (p_signed_data : NSSCMSSignedData) :
    p7v_result_t × List Effect :=
  if p_signed_data.import_certs ≠ SECStatus.SECSuccess then
    (P7V_CMS_CERT_IMPORT_FAILED, [Effect.NSS_CMSSignedData_ImportCerts i])
  else
    let r := verify_signers_loop verbose i 0 p_signed_data.signer_infos
    (r.1, Effect.NSS_CMSSignedData_ImportCerts i ::
      Effect.NSS_CMSSignedData_SignerInfoCount i :: r.2)

/-- The `for` loop of `check_message` (p7v.c:329-347) from level `i` on, over
the levels not yet visited.  A loop that runs to its end leaves `result` at
`P7V_OK`. -/
def check_message_loop (verbose : Int) :
    Nat → List NSSCMSContentInfo → p7v_result_t × List Effect
  | _, [] => (P7V_OK, [])
  | i, p_content_info :: rest =>
    let calls := [Effect.NSS_CMSMessage_ContentLevel i,
      Effect.NSS_CMSContentInfo_GetContentTypeTag i]
    if p_content_info.type_tag = SEC_OID_PKCS7_SIGNED_DATA then
      let r1 := verify_signers verbose i p_content_info.content
      if r1.1 ≠ P7V_OK then
        (r1.1, calls ++ Effect.NSS_CMSContentInfo_GetContent i :: r1.2)
      else
        let r2 := check_message_loop verbose (i + 1) rest
        (r2.1, calls ++ Effect.NSS_CMSContentInfo_GetContent i :: r1.2 ++ r2.2)
    else
      let r2 := check_message_loop verbose (i + 1) rest
      (r2.1, calls ++ r2.2)

/-- The function `check_message` (p7v.c:315-352). -/
def check_message (verbose : Int) (p_message : NSSCMSMessage) : p7v_result_t × List Effect :=
  if p_message.is_signed then
    let r := check_message_loop verbose 0 p_message.levels
    (r.1, Effect.NSS_CMSMessage_IsSigned :: Effect.NSS_CMSMessage_ContentLevelCount :: r.2)
  else
    (P7V_OK, [Effect.NSS_CMSMessage_IsSigned])

/-- The function `decoder_finish` (p7v.c:363-408).  `p_message` is what
`NSS_CMSDecoder_Finish` returns, `none` for a null pointer. -/
def decoder_finish (verbose : Int) (decoder : p7v_decoder_t) (skip_verification : Int)
    (p_message : Option NSSCMSMessage) : p7v_result_t × List Effect :=
  let body : p7v_result_t × List Effect :=
    match p_message with
    | some m =>
      let r : p7v_result_t × List Effect :=
        if skip_verification = 0 then check_message verbose m
        else if verbose ≠ 0 then (P7V_OK, [Effect.fprintf_stderr Diag.verification_skipped])
        else (P7V_OK, [])
      (r.1, r.2 ++ [Effect.NSS_CMSMessage_Destroy])
    | none => (P7V_CMS_DECODER_FINISH_FAILED, [])
  let release :=
    if decoder.p_arena ≠ 0 then [Effect.PORT_FreeArena decoder.p_arena] else []
  (body.1, Effect.NSS_CMSDecoder_Finish :: body.2 ++ release ++ [Effect.NSS_Shutdown])

/-- The read loop of `main` (p7v.c:509-521) from iteration `n` on.  The list
holds the iterations the input allows before `feof` becomes true. -/
def read_loop : Nat → List Read → p7v_decoder_t → p7v_result_t →
    p7v_result_t × p7v_decoder_t × List Effect
  | _, [], decoder, result => (result, decoder, [])
  | n, c :: rest, decoder, result =>
    if 0 < c.r then
      let f := decoder_feed n decoder c
      if f.1 ≠ P7V_OK then (f.1, f.2.1, Effect.fread n :: f.2.2)
      else if f.2.1.write_error ≠ 0 then
        (P7V_OUTPUT_WRITE_FAILED, f.2.1, Effect.fread n :: f.2.2)
      else
        let l := read_loop (n + 1) rest f.2.1 f.1
        (l.1, l.2.1, Effect.fread n :: f.2.2 ++ l.2.2)
    else
      let l := read_loop (n + 1) rest decoder result
      (l.1, l.2.1, Effect.fread n :: l.2.2)

/-- Everything one run of `main` gets from outside, once `getopt_long` is done:
the option flags, the input operand (`none` when `optind = argc`) and whether
its `fopen` succeeds, the argument of `-o` (`none` when absent) and whether its
`fopen` succeeds, the answers of NSS, the indeterminate initial contents of
the locals, the iterations of the read loop, and the decoded message. -/
structure Run where
  verbose : Int
  no_verify : Int
  input : Option String
  fopen_input : Bool
  output : Option String
  fopen_output : Bool
  nss_init : SECStatus
  new_arena : Nat
  decoder_start : Nat
  uninit_result : p7v_result_t
  uninit_decoder : p7v_decoder_t
  reads : List Read
  finish : Option NSSCMSMessage

/-- The diagnostic line printed only when `verbose` is set. -/
def when_verbose (verbose : Int) (msg : Diag) : List Effect :=
  if verbose ≠ 0 then [Effect.fprintf_stderr msg] else []

/-- The part of `main` after both streams are open (p7v.c:491-546). -/
def main_body (r : Run) (fin fout : FILE) : p7v_result_t × List Effect :=
  let i := init r.nss_init
  if i.1 ≠ P7V_OK then
    (i.1, i.2 ++ [Effect.fprintf_stderr (Diag.init_failed i.1)])
  else
    let t1 := i.2 ++ when_verbose r.verbose Diag.initialized
    let s := decoder_setup r.uninit_result r.new_arena r.decoder_start fout r.uninit_decoder
    if s.1 ≠ P7V_OK then
      (s.1, t1 ++ s.2.2 ++ [Effect.fprintf_stderr (Diag.setup_failed s.1)])
    else
      let l := read_loop 0 r.reads s.2.1 s.1
      let closes :=
        (if fout ≠ FILE.stdout then [Effect.fclose fout] else []) ++
        (if fin ≠ FILE.stdin then [Effect.fclose fin] else [])
      let f : p7v_result_t × List Effect :=
        if l.1 = P7V_OK then decoder_finish r.verbose l.2.1 r.no_verify r.finish
        else (l.1, [])
      let last :=
        if f.1 ≠ P7V_OK then
          (if fout ≠ FILE.stdout then [Effect.unlink r.output] else [])
        else when_verbose r.verbose Diag.data_extracted
      (f.1, t1 ++ s.2.2 ++ l.2.2 ++ closes ++ f.2 ++ last ++
        when_verbose r.verbose (Diag.exiting_status f.1))

/-- Opening the input (p7v.c:461-474): the stream, or `none` when `fopen`
fails, and the calls made. -/
def open_input (r : Run) : Option FILE × List Effect :=
  match r.input with
  | some path =>
    if r.fopen_input then
      (some (FILE.opened path),
        Effect.fopen path :: when_verbose r.verbose Diag.opened_reading)
    else
      (none, [Effect.fopen path, Effect.fprintf_stderr Diag.failed_open_input])
  | none => (some FILE.stdin, [])

/-- Opening the output (p7v.c:476-489): the stream, or `none` when `fopen`
fails, and the calls made. -/
def open_output (r : Run) : Option FILE × List Effect :=
  match r.output with
  | some path =>
    if r.fopen_output then
      (some (FILE.opened path),
        Effect.fopen path :: when_verbose r.verbose Diag.opened_writing)
    else
      (none, [Effect.fopen path, Effect.fprintf_stderr Diag.failed_open_output])
  | none => (some FILE.stdout, [])

/-- The function `main` (p7v.c:410-547) after option parsing: the exit status
and the calls made, in order. -/
def main (r : Run) : p7v_result_t × List Effect :=
  let t0 := when_verbose r.verbose Diag.version
  let i := open_input r
  match i.1 with
  | none => (P7V_INPUT_OPEN_FAILED, t0 ++ i.2)
  | some fin =>
    let o := open_output r
    match o.1 with
    | none => (P7V_OUTPUT_OPEN_FAILED, t0 ++ i.2 ++ o.2)
    | some fout =>
      let b := main_body r fin fout
      (b.1, t0 ++ i.2 ++ o.2 ++ b.2)

/-! ## Observations on traces and reference predicates -/

/-- The signer a call verifies, as (level, signer index). -/
def Effect.verified : Effect → Option (Nat × Nat)
  | .NSS_CMSSignedData_VerifySignerInfo i signer => some (i, signer)
  | _ => none

/-- The level whose certificates a call imports. -/
def Effect.imported : Effect → Option Nat
  | .NSS_CMSSignedData_ImportCerts i => some i
  | _ => none

/-- The content level a call asks the message for. -/
def Effect.inspected : Effect → Option Nat
  | .NSS_CMSMessage_ContentLevel i => some i
  | _ => none

/-- The read-loop iteration whose chunk a call feeds to the decoder. -/
def Effect.fed : Effect → Option Nat
  | .NSS_CMSDecoder_Update n => some n
  | _ => none

/-- The path a call unlinks. -/
def Effect.unlinked : Effect → Option (Option String)
  | .unlink path => some path
  | _ => none

/-- The arena a call frees. -/
def Effect.freed : Effect → Option Nat
  | .PORT_FreeArena arena => some arena
  | _ => none

/-- The (level, signer) pairs verified in a trace, in order. -/
def verified_signers (t : List Effect) : List (Nat × Nat) := t.filterMap Effect.verified

/-- The levels whose certificates are imported in a trace, in order. -/
def imported_levels (t : List Effect) : List Nat := t.filterMap Effect.imported

/-- The content levels inspected in a trace, in order. -/
def inspected_levels (t : List Effect) : List Nat := t.filterMap Effect.inspected

/-- The read-loop iterations whose chunk is fed in a trace, in order. -/
def fed_chunks (t : List Effect) : List Nat := t.filterMap Effect.fed

/-- The paths unlinked in a trace, in order. -/
def unlinked_paths (t : List Effect) : List (Option String) := t.filterMap Effect.unlinked

/-- The arenas freed in a trace, in order. -/
def freed_arenas (t : List Effect) : List Nat := t.filterMap Effect.freed

/-- Every signer of a signer list verifies with `SECSuccess`. -/
def signers_pass (ss : List NSSCMSSignerInfo) : Prop :=
  ∀ s ∈ ss, s.verify = SECStatus.SECSuccess

/-- The reference trust decision for one content level, in the words of the
specification: a level that denotes signed data needs its certificate import
to succeed and every one of its signers to verify; any other level passes. -/
def level_trusted (l : NSSCMSContentInfo) : Prop :=
  l.type_tag = SEC_OID_PKCS7_SIGNED_DATA →
    l.content.import_certs = SECStatus.SECSuccess ∧ signers_pass l.content.signer_infos

/-- The reference trust decision for a message: every content level passes. -/
def message_trusted (m : NSSCMSMessage) : Prop :=
  ∀ l ∈ m.levels, level_trusted l

instance (ss : List NSSCMSSignerInfo) : Decidable (signers_pass ss) := by
  unfold signers_pass; infer_instance

instance (l : NSSCMSContentInfo) : Decidable (level_trusted l) := by
  unfold level_trusted; infer_instance

instance (m : NSSCMSMessage) : Decidable (message_trusted m) := by
  unfold message_trusted; infer_instance

/-- The calls of the read loop: reading, feeding and writing. -/
def Effect.streams : Effect → Bool
  | .fread _ => true
  | .NSS_CMSDecoder_Update _ => true
  | .fwrite _ => true
  | _ => false

/-- The calls made while a decoded message is checked. -/
def Effect.checks : Effect → Bool
  | .NSS_CMSMessage_IsSigned => true
  | .NSS_CMSMessage_ContentLevelCount => true
  | .NSS_CMSMessage_ContentLevel _ => true
  | .NSS_CMSContentInfo_GetContentTypeTag _ => true
  | .NSS_CMSContentInfo_GetContent _ => true
  | .NSS_CMSSignedData_ImportCerts _ => true
  | .NSS_CMSSignedData_SignerInfoCount _ => true
  | .NSS_CMSSignedData_GetSignerInfo _ _ => true
  | .NSS_CMSSignedData_VerifySignerInfo _ _ => true
  | .NSS_CMSSignerInfo_GetVerificationStatus _ _ => true
  | .NSS_CMSSignerInfo_GetSignerCommonName _ _ => true
  | .fprintf_stderr _ => true
  | .PORT_Free => true
  | _ => false

/-- The calls around the session that neither feed the decoder, finish it,
release what it holds nor touch the output path: opening and closing streams,
start-up, and diagnostic lines. -/
def Effect.opens : Effect → Bool
  | .fopen _ => true
  | .fclose _ => true
  | .fprintf_stderr _ => true
  | .PR_Init => true
  | .NSS_Init => true
  | .PORT_NewArena => true
  | .NSS_CMSDecoder_Start _ => true
  | _ => false

/-- Every content callback of a list has its `fwrite` return 1. -/
def writes_ok (ws : List (Nat × Nat)) : Prop :=
  ∀ w ∈ ws, fwrite w.1 1 w.2 = 1

/-- The stream goes through: every iteration that read something has its
decoder update succeed and all its content writes succeed. -/
def stream_ok (reads : List Read) : Prop :=
  ∀ c ∈ reads, 0 < c.r → c.update = SECStatus.SECSuccess ∧ writes_ok c.writes

instance (ws : List (Nat × Nat)) : Decidable (writes_ok ws) := by
  unfold writes_ok; infer_instance

instance (reads : List Read) : Decidable (stream_ok reads) := by
  unfold stream_ok; infer_instance

/-! ## Sample inputs -/

/-- A signer whose verification succeeds. -/
def signer_valid : NSSCMSSignerInfo := ⟨SECStatus.SECSuccess, 0, some "release"⟩

/-- A signer whose verification fails and whose certificate has no common name. -/
def signer_invalid : NSSCMSSignerInfo := ⟨SECStatus.SECFailure, 3, none⟩

/-- One signed-data level with signers valid, invalid, valid. -/
def level_mixed : NSSCMSContentInfo :=
  ⟨SEC_OID_PKCS7_SIGNED_DATA, ⟨SECStatus.SECSuccess, [signer_valid, signer_invalid, signer_valid]⟩⟩

/-- One signed-data level whose signer verifies. -/
def level_good : NSSCMSContentInfo :=
  ⟨SEC_OID_PKCS7_SIGNED_DATA, ⟨SECStatus.SECSuccess, [signer_valid]⟩⟩

/-- One signed-data level whose certificates cannot be imported. -/
def level_no_import : NSSCMSContentInfo :=
  ⟨SEC_OID_PKCS7_SIGNED_DATA, ⟨SECStatus.SECFailure, [signer_valid]⟩⟩

/-- A plain data level (tag 25 is `SEC_OID_PKCS7_DATA`). -/
def level_data : NSSCMSContentInfo := ⟨25, ⟨SECStatus.SECFailure, []⟩⟩

/-- A signed message with the single level `level_mixed`. -/
def message_mixed : NSSCMSMessage := ⟨true, [level_mixed]⟩

/-- A signed message whose second level fails to import its certificates. -/
def message_no_import : NSSCMSMessage := ⟨true, [level_good, level_no_import, level_good]⟩

/-- A signed message that verifies. -/
def message_good : NSSCMSMessage := ⟨true, [level_good, level_data]⟩

/-- A message that is not signed, whatever its levels hold. -/
def message_unsigned : NSSCMSMessage := ⟨false, [level_data, level_mixed]⟩

/-- A decoder descriptor as `decoder_setup` leaves it on success. -/
def decoder_ready : p7v_decoder_t := ⟨1, FILE.stdout, 0, 2⟩

/-- A read of 10 bytes that decodes to one content write of 10 bytes, all taken. -/
def read_good : Read := ⟨10, SECStatus.SECSuccess, [(10, 10)]⟩

/-- A read of 10 bytes whose decoder update fails. -/
def read_bad_update : Read := ⟨10, SECStatus.SECFailure, []⟩

/-- A read of 10 bytes whose content write of 10 bytes is cut short by the sink. -/
def read_short_write : Read := ⟨10, SECStatus.SECSuccess, [(10, 4)]⟩

/-- A run reading standard input and writing `out.bin`, in which everything
succeeds and the message verifies. -/
def run_good : Run :=
  { verbose := 0, no_verify := 0, input := none, fopen_input := true,
    output := some "out.bin", fopen_output := true,
    nss_init := SECStatus.SECSuccess, new_arena := 1, decoder_start := 2,
    uninit_result := 6, uninit_decoder := ⟨0, FILE.stdin, 7, 0⟩,
    reads := [read_good, read_good], finish := some message_good }

/-- The run `run_good` with a message whose second signer is invalid. -/
def run_bad_signer : Run := { run_good with finish := some message_mixed }

/-- The run `run_good` with a first chunk the decoder rejects. -/
def run_feed_failure : Run := { run_good with reads := [read_bad_update, read_good] }

/-- The run `run_good` with a second chunk whose content the sink cuts short. -/
def run_write_failure : Run :=
  { run_good with reads := [read_good, read_short_write, read_good] }

/-- The run `run_good` with a trust store that fails to initialise. -/
def run_init_failure : Run := { run_good with nss_init := SECStatus.SECFailure }

/-- The run `run_good` with a decoder that fails to start. -/
def run_start_failure : Run := { run_good with decoder_start := 0 }

/-- The run `run_good` with no arena to be had, the local `result` of
`decoder_setup` happening to hold 0. -/
def run_no_arena : Run := { run_good with new_arena := 0, uninit_result := 0 }

/-! ## Signer verification -/

@[simp] theorem verified_signers_nil : verified_signers [] = [] := rfl
@[simp] theorem verified_signers_append (a b : List Effect) :
    verified_signers (a ++ b) = verified_signers a ++ verified_signers b := by
  simp [verified_signers]
@[simp] theorem imported_levels_nil : imported_levels [] = [] := rfl
@[simp] theorem imported_levels_append (a b : List Effect) :
    imported_levels (a ++ b) = imported_levels a ++ imported_levels b := by
  simp [imported_levels]
@[simp] theorem inspected_levels_nil : inspected_levels [] = [] := rfl
@[simp] theorem inspected_levels_append (a b : List Effect) :
    inspected_levels (a ++ b) = inspected_levels a ++ inspected_levels b := by
  simp [inspected_levels]

theorem verify_signer_result (verbose : Int) (i signer : Nat) (s : NSSCMSSignerInfo) :
    (verify_signer verbose i signer s).1 =
      if s.verify = SECStatus.SECSuccess then P7V_OK else P7V_VERIFICATION_FAILED := by
  unfold verify_signer
  by_cases h : s.verify = SECStatus.SECSuccess <;> simp [h]

theorem verify_signer_verified (verbose : Int) (i signer : Nat) (s : NSSCMSSignerInfo) :
    verified_signers (verify_signer verbose i signer s).2 = [(i, signer)] := by
  unfold verify_signer verified_signers
  by_cases hv : verbose = 0 <;> cases hc : s.common_name <;>
    simp [hv, hc, List.filterMap_cons, Effect.verified]

theorem verify_signer_imported (verbose : Int) (i signer : Nat) (s : NSSCMSSignerInfo) :
    imported_levels (verify_signer verbose i signer s).2 = [] := by
  unfold verify_signer imported_levels
  by_cases hv : verbose = 0 <;> cases hc : s.common_name <;>
    simp [hv, hc, List.filterMap_cons, Effect.imported]

theorem verify_signer_inspected (verbose : Int) (i signer : Nat) (s : NSSCMSSignerInfo) :
    inspected_levels (verify_signer verbose i signer s).2 = [] := by
  unfold verify_signer inspected_levels
  by_cases hv : verbose = 0 <;> cases hc : s.common_name <;>
    simp [hv, hc, List.filterMap_cons, Effect.inspected]

theorem signers_pass_cons (s : NSSCMSSignerInfo) (ss : List NSSCMSSignerInfo) :
    signers_pass (s :: ss) ↔ s.verify = SECStatus.SECSuccess ∧ signers_pass ss := by
  simp [signers_pass]

theorem verify_signers_loop_cons_pass (verbose : Int) (i k : Nat) (s : NSSCMSSignerInfo)
    (ss : List NSSCMSSignerInfo) (h : s.verify = SECStatus.SECSuccess) :
    verify_signers_loop verbose i k (s :: ss) =
      ((verify_signers_loop verbose i (k + 1) ss).1,
        (verify_signer verbose i k s).2 ++ (verify_signers_loop verbose i (k + 1) ss).2) := by
  simp [verify_signers_loop, verify_signer_result, h]

theorem verify_signers_loop_cons_fail (verbose : Int) (i k : Nat) (s : NSSCMSSignerInfo)
    (ss : List NSSCMSSignerInfo) (h : s.verify ≠ SECStatus.SECSuccess) :
    verify_signers_loop verbose i k (s :: ss) =
      (P7V_VERIFICATION_FAILED, (verify_signer verbose i k s).2) := by
  have h1 : (verify_signer verbose i k s).1 = P7V_VERIFICATION_FAILED := by
    simp [verify_signer_result, h]
  have h2 : P7V_VERIFICATION_FAILED ≠ P7V_OK := by decide
  rw [verify_signers_loop]
  simp only [h1, h2, ne_eq, not_false_eq_true, if_true]
  rw [← h1]

theorem verify_signers_loop_append (verbose : Int) (i : Nat) (pre rest : List NSSCMSSignerInfo) :
    ∀ k, signers_pass pre →
    verify_signers_loop verbose i k (pre ++ rest) =
      ((verify_signers_loop verbose i (k + pre.length) rest).1,
        (verify_signers_loop verbose i k pre).2 ++
          (verify_signers_loop verbose i (k + pre.length) rest).2) := by
  induction pre with
  | nil => intro k _; simp [verify_signers_loop]
  | cons s ss ih =>
    intro k h
    rw [signers_pass_cons] at h
    rw [List.cons_append, verify_signers_loop_cons_pass _ _ _ _ _ h.1, ih (k + 1) h.2,
      verify_signers_loop_cons_pass _ _ _ _ _ h.1]
    simp [Nat.add_assoc, Nat.add_comm 1]

theorem verify_signers_loop_ok_iff (verbose : Int) (i : Nat) (ss : List NSSCMSSignerInfo) :
    ∀ k, (verify_signers_loop verbose i k ss).1 = P7V_OK ↔ signers_pass ss := by
  induction ss with
  | nil => intro k; simp [verify_signers_loop, signers_pass]
  | cons s ss ih =>
    intro k
    by_cases h : s.verify = SECStatus.SECSuccess
    · rw [verify_signers_loop_cons_pass _ _ _ _ _ h, signers_pass_cons]
      simp [ih (k + 1), h]
    · rw [verify_signers_loop_cons_fail _ _ _ _ _ h, signers_pass_cons]
      simp [h, P7V_VERIFICATION_FAILED, P7V_OK]

theorem verify_signers_loop_result (verbose : Int) (i : Nat) (ss : List NSSCMSSignerInfo) :
    ∀ k, (verify_signers_loop verbose i k ss).1 = P7V_OK ∨
      (verify_signers_loop verbose i k ss).1 = P7V_VERIFICATION_FAILED := by
  induction ss with
  | nil => intro k; simp [verify_signers_loop]
  | cons s ss ih =>
    intro k
    by_cases h : s.verify = SECStatus.SECSuccess
    · rw [verify_signers_loop_cons_pass _ _ _ _ _ h]; exact ih (k + 1)
    · rw [verify_signers_loop_cons_fail _ _ _ _ _ h]; exact Or.inr rfl

theorem verify_signers_loop_imported (verbose : Int) (i : Nat) (ss : List NSSCMSSignerInfo) :
    ∀ k, imported_levels (verify_signers_loop verbose i k ss).2 = [] := by
  induction ss with
  | nil => intro k; simp [verify_signers_loop]
  | cons s ss ih =>
    intro k
    by_cases h : s.verify = SECStatus.SECSuccess
    · rw [verify_signers_loop_cons_pass _ _ _ _ _ h]
      simp [ih (k + 1), verify_signer_imported]
    · rw [verify_signers_loop_cons_fail _ _ _ _ _ h]
      simp [verify_signer_imported]

theorem verify_signers_loop_inspected (verbose : Int) (i : Nat) (ss : List NSSCMSSignerInfo) :
    ∀ k, inspected_levels (verify_signers_loop verbose i k ss).2 = [] := by
  induction ss with
  | nil => intro k; simp [verify_signers_loop]
  | cons s ss ih =>
    intro k
    by_cases h : s.verify = SECStatus.SECSuccess
    · rw [verify_signers_loop_cons_pass _ _ _ _ _ h]
      simp [ih (k + 1), verify_signer_inspected]
    · rw [verify_signers_loop_cons_fail _ _ _ _ _ h]
      simp [verify_signer_inspected]

/-- A signer loop over signers that all verify visits each of them once, in
index order. -/
theorem verify_signers_loop_verified_pass (verbose : Int) (i : Nat)
    (ss : List NSSCMSSignerInfo) :
    ∀ k, signers_pass ss →
    verified_signers (verify_signers_loop verbose i k ss).2 =
      (List.range' k ss.length).map (Prod.mk i) := by
  induction ss with
  | nil => intro k _; simp [verify_signers_loop]
  | cons s ss ih =>
    intro k h
    rw [signers_pass_cons] at h
    rw [verify_signers_loop_cons_pass _ _ _ _ _ h.1]
    simp [ih (k + 1) h.2, verify_signer_verified, List.range'_succ]

/-- A signer loop stops at the first signer that does not verify: the signers
it visits are that one and those before it, in index order. -/
theorem verify_signers_loop_first_failure (verbose : Int) (i k : Nat)
    (pre post : List NSSCMSSignerInfo) (s : NSSCMSSignerInfo)
    (hpre : signers_pass pre) (hs : s.verify ≠ SECStatus.SECSuccess) :
    (verify_signers_loop verbose i k (pre ++ s :: post)).1 = P7V_VERIFICATION_FAILED ∧
    verified_signers (verify_signers_loop verbose i k (pre ++ s :: post)).2 =
      (List.range' k (pre.length + 1)).map (Prod.mk i) ∧
    imported_levels (verify_signers_loop verbose i k (pre ++ s :: post)).2 = [] ∧
    inspected_levels (verify_signers_loop verbose i k (pre ++ s :: post)).2 = [] := by
  rw [verify_signers_loop_append _ _ _ _ _ hpre, verify_signers_loop_cons_fail _ _ _ _ _ hs]
  refine ⟨rfl, ?_, ?_, ?_⟩
  · simp [verify_signers_loop_verified_pass _ _ _ _ hpre, verify_signer_verified,
      List.range'_concat]
  · simp [verify_signers_loop_imported, verify_signer_imported]
  · simp [verify_signers_loop_inspected, verify_signer_inspected]

theorem verify_signers_loop_verified_bound (verbose : Int) (i : Nat)
    (ss : List NSSCMSSignerInfo) :
    ∀ k, ∀ p ∈ verified_signers (verify_signers_loop verbose i k ss).2, p.1 = i := by
  induction ss with
  | nil => intro k; simp [verify_signers_loop]
  | cons s ss ih =>
    intro k p hp
    by_cases h : s.verify = SECStatus.SECSuccess
    · rw [verify_signers_loop_cons_pass _ _ _ _ _ h] at hp
      simp only [verified_signers_append, verify_signer_verified, List.mem_append,
        List.mem_singleton] at hp
      rcases hp with hp | hp
      · rw [hp]
      · exact ih (k + 1) p hp
    · rw [verify_signers_loop_cons_fail _ _ _ _ _ h] at hp
      simp only [verify_signer_verified, List.mem_singleton] at hp
      rw [hp]

theorem verify_signers_import_failed (verbose : Int) (i : Nat) (sd : NSSCMSSignedData)
    (h : sd.import_certs ≠ SECStatus.SECSuccess) :
    verify_signers verbose i sd =
      (P7V_CMS_CERT_IMPORT_FAILED, [Effect.NSS_CMSSignedData_ImportCerts i]) := by
  simp [verify_signers, h]

theorem verify_signers_imported_ok (verbose : Int) (i : Nat) (sd : NSSCMSSignedData)
    (h : sd.import_certs = SECStatus.SECSuccess) :
    verify_signers verbose i sd =
      ((verify_signers_loop verbose i 0 sd.signer_infos).1,
        Effect.NSS_CMSSignedData_ImportCerts i :: Effect.NSS_CMSSignedData_SignerInfoCount i ::
          (verify_signers_loop verbose i 0 sd.signer_infos).2) := by
  simp [verify_signers, h]

theorem verify_signers_ok_iff (verbose : Int) (i : Nat) (sd : NSSCMSSignedData) :
    (verify_signers verbose i sd).1 = P7V_OK ↔
      sd.import_certs = SECStatus.SECSuccess ∧ signers_pass sd.signer_infos := by
  by_cases h : sd.import_certs = SECStatus.SECSuccess
  · rw [verify_signers_imported_ok _ _ _ h]
    simp [h, verify_signers_loop_ok_iff]
  · rw [verify_signers_import_failed _ _ _ h]
    simp [h, P7V_CMS_CERT_IMPORT_FAILED, P7V_OK]

theorem verify_signers_result (verbose : Int) (i : Nat) (sd : NSSCMSSignedData) :
    (verify_signers verbose i sd).1 = P7V_OK ∨
      (verify_signers verbose i sd).1 = P7V_VERIFICATION_FAILED ∨
      (verify_signers verbose i sd).1 = P7V_CMS_CERT_IMPORT_FAILED := by
  by_cases h : sd.import_certs = SECStatus.SECSuccess
  · rw [verify_signers_imported_ok _ _ _ h]
    rcases verify_signers_loop_result verbose i sd.signer_infos 0 with h1 | h1
    · exact Or.inl h1
    · exact Or.inr (Or.inl h1)
  · rw [verify_signers_import_failed _ _ _ h]
    exact Or.inr (Or.inr rfl)

theorem verify_signers_imported (verbose : Int) (i : Nat) (sd : NSSCMSSignedData) :
    imported_levels (verify_signers verbose i sd).2 = [i] := by
  by_cases h : sd.import_certs = SECStatus.SECSuccess
  · rw [verify_signers_imported_ok _ _ _ h]
    have := verify_signers_loop_imported verbose i sd.signer_infos 0
    simp only [imported_levels] at this
    simp [imported_levels, List.filterMap_cons, Effect.imported, this]
  · rw [verify_signers_import_failed _ _ _ h]
    simp [imported_levels, List.filterMap_cons, Effect.imported]

theorem verify_signers_inspected (verbose : Int) (i : Nat) (sd : NSSCMSSignedData) :
    inspected_levels (verify_signers verbose i sd).2 = [] := by
  by_cases h : sd.import_certs = SECStatus.SECSuccess
  · rw [verify_signers_imported_ok _ _ _ h]
    have := verify_signers_loop_inspected verbose i sd.signer_infos 0
    simp only [inspected_levels] at this
    simp [inspected_levels, List.filterMap_cons, Effect.inspected, this]
  · rw [verify_signers_import_failed _ _ _ h]
    simp [inspected_levels, List.filterMap_cons, Effect.inspected]

theorem verify_signers_verified (verbose : Int) (i : Nat) (sd : NSSCMSSignedData) :
    verified_signers (verify_signers verbose i sd).2 =
      if sd.import_certs = SECStatus.SECSuccess then
        verified_signers (verify_signers_loop verbose i 0 sd.signer_infos).2
      else [] := by
  by_cases h : sd.import_certs = SECStatus.SECSuccess
  · rw [verify_signers_imported_ok _ _ _ h]
    simp [verified_signers, List.filterMap_cons, Effect.verified, h]
  · rw [verify_signers_import_failed _ _ _ h]
    simp [verified_signers, List.filterMap_cons, Effect.verified, h]

theorem verify_signers_verified_bound (verbose : Int) (i : Nat) (sd : NSSCMSSignedData) :
    ∀ p ∈ verified_signers (verify_signers verbose i sd).2, p.1 = i := by
  intro p hp
  rw [verify_signers_verified] at hp
  by_cases h : sd.import_certs = SECStatus.SECSuccess
  · rw [if_pos h] at hp
    exact verify_signers_loop_verified_bound verbose i sd.signer_infos 0 p hp
  · rw [if_neg h] at hp
    simp at hp

/-! ## The level loop -/

theorem check_message_loop_cons_other (verbose : Int) (i : Nat) (l : NSSCMSContentInfo)
    (rest : List NSSCMSContentInfo) (h : l.type_tag ≠ SEC_OID_PKCS7_SIGNED_DATA) :
    check_message_loop verbose i (l :: rest) =
      ((check_message_loop verbose (i + 1) rest).1,
        [Effect.NSS_CMSMessage_ContentLevel i, Effect.NSS_CMSContentInfo_GetContentTypeTag i] ++
          (check_message_loop verbose (i + 1) rest).2) := by
  simp [check_message_loop, h]

theorem check_message_loop_cons_pass (verbose : Int) (i : Nat) (l : NSSCMSContentInfo)
    (rest : List NSSCMSContentInfo) (h : l.type_tag = SEC_OID_PKCS7_SIGNED_DATA)
    (hok : (verify_signers verbose i l.content).1 = P7V_OK) :
    check_message_loop verbose i (l :: rest) =
      ((check_message_loop verbose (i + 1) rest).1,
        [Effect.NSS_CMSMessage_ContentLevel i, Effect.NSS_CMSContentInfo_GetContentTypeTag i] ++
          Effect.NSS_CMSContentInfo_GetContent i :: (verify_signers verbose i l.content).2 ++
          (check_message_loop verbose (i + 1) rest).2) := by
  simp [check_message_loop, h, hok]

theorem check_message_loop_cons_fail (verbose : Int) (i : Nat) (l : NSSCMSContentInfo)
    (rest : List NSSCMSContentInfo) (h : l.type_tag = SEC_OID_PKCS7_SIGNED_DATA)
    (hbad : (verify_signers verbose i l.content).1 ≠ P7V_OK) :
    check_message_loop verbose i (l :: rest) =
      ((verify_signers verbose i l.content).1,
        [Effect.NSS_CMSMessage_ContentLevel i, Effect.NSS_CMSContentInfo_GetContentTypeTag i] ++
          Effect.NSS_CMSContentInfo_GetContent i :: (verify_signers verbose i l.content).2) := by
  simp [check_message_loop, h, hbad]

theorem level_trusted_iff (verbose : Int) (i : Nat) (l : NSSCMSContentInfo) :
    level_trusted l ↔
      (l.type_tag = SEC_OID_PKCS7_SIGNED_DATA → (verify_signers verbose i l.content).1 = P7V_OK) := by
  simp [level_trusted, verify_signers_ok_iff]

theorem check_message_loop_cons_trusted (verbose : Int) (i : Nat) (l : NSSCMSContentInfo)
    (rest : List NSSCMSContentInfo) (h : level_trusted l) :
    (check_message_loop verbose i (l :: rest)).1 = (check_message_loop verbose (i + 1) rest).1 := by
  by_cases ht : l.type_tag = SEC_OID_PKCS7_SIGNED_DATA
  · rw [check_message_loop_cons_pass _ _ _ _ ht ((level_trusted_iff verbose i l).1 h ht)]
  · rw [check_message_loop_cons_other _ _ _ _ ht]

theorem check_message_loop_append (verbose : Int) (pre rest : List NSSCMSContentInfo) :
    ∀ i, (∀ l ∈ pre, level_trusted l) →
    check_message_loop verbose i (pre ++ rest) =
      ((check_message_loop verbose (i + pre.length) rest).1,
        (check_message_loop verbose i pre).2 ++
          (check_message_loop verbose (i + pre.length) rest).2) := by
  induction pre with
  | nil => intro i _; simp [check_message_loop]
  | cons l ls ih =>
    intro i h
    have hl : level_trusted l := h l (List.mem_cons_self _ _)
    have hls : ∀ x ∈ ls, level_trusted x := fun x hx => h x (List.mem_cons_of_mem _ hx)
    by_cases ht : l.type_tag = SEC_OID_PKCS7_SIGNED_DATA
    · have hok := (level_trusted_iff verbose i l).1 hl ht
      rw [List.cons_append, check_message_loop_cons_pass _ _ _ _ ht hok, ih (i + 1) hls,
        check_message_loop_cons_pass _ _ _ _ ht hok]
      simp [Nat.add_assoc, Nat.add_comm 1]
    · rw [List.cons_append, check_message_loop_cons_other _ _ _ _ ht, ih (i + 1) hls,
        check_message_loop_cons_other _ _ _ _ ht]
      simp [Nat.add_assoc, Nat.add_comm 1]

theorem check_message_loop_ok_iff (verbose : Int) (ls : List NSSCMSContentInfo) :
    ∀ i, (check_message_loop verbose i ls).1 = P7V_OK ↔ ∀ l ∈ ls, level_trusted l := by
  induction ls with
  | nil => intro i; simp [check_message_loop]
  | cons l ls ih =>
    intro i
    rw [List.forall_mem_cons]
    by_cases hl : level_trusted l
    · rw [check_message_loop_cons_trusted _ _ _ _ hl, ih (i + 1)]
      simp [hl]
    · have ht : l.type_tag = SEC_OID_PKCS7_SIGNED_DATA := by
        by_contra hne
        exact hl (fun h => absurd h hne)
      have hbad : (verify_signers verbose i l.content).1 ≠ P7V_OK :=
        fun hok => hl ((level_trusted_iff verbose i l).2 (fun _ => hok))
      rw [check_message_loop_cons_fail _ _ _ _ ht hbad]
      simp [hl, hbad]

theorem check_message_loop_result (verbose : Int) (ls : List NSSCMSContentInfo) :
    ∀ i, (check_message_loop verbose i ls).1 = P7V_OK ∨
      (check_message_loop verbose i ls).1 = P7V_VERIFICATION_FAILED ∨
      (check_message_loop verbose i ls).1 = P7V_CMS_CERT_IMPORT_FAILED := by
  induction ls with
  | nil => intro i; exact Or.inl rfl
  | cons l ls ih =>
    intro i
    by_cases ht : l.type_tag = SEC_OID_PKCS7_SIGNED_DATA
    · by_cases hok : (verify_signers verbose i l.content).1 = P7V_OK
      · rw [check_message_loop_cons_pass _ _ _ _ ht hok]; exact ih (i + 1)
      · rw [check_message_loop_cons_fail _ _ _ _ ht hok]
        exact verify_signers_result verbose i l.content
    · rw [check_message_loop_cons_other _ _ _ _ ht]; exact ih (i + 1)

theorem verify_signers_loop_index (verbose : Int) (ss : List NSSCMSSignerInfo) :
    ∀ i k j n, (verify_signers_loop verbose i k ss).1 = (verify_signers_loop verbose j n ss).1 := by
  induction ss with
  | nil => intro i k j n; rfl
  | cons s ss ih =>
    intro i k j n
    by_cases h : s.verify = SECStatus.SECSuccess
    · rw [verify_signers_loop_cons_pass _ _ _ _ _ h, verify_signers_loop_cons_pass _ _ _ _ _ h]
      exact ih i (k + 1) j (n + 1)
    · rw [verify_signers_loop_cons_fail _ _ _ _ _ h, verify_signers_loop_cons_fail _ _ _ _ _ h]

theorem verify_signers_index (verbose : Int) (sd : NSSCMSSignedData) (i j : Nat) :
    (verify_signers verbose i sd).1 = (verify_signers verbose j sd).1 := by
  by_cases h : sd.import_certs = SECStatus.SECSuccess
  · rw [verify_signers_imported_ok _ _ _ h, verify_signers_imported_ok _ _ _ h]
    exact verify_signers_loop_index verbose sd.signer_infos i 0 j 0
  · rw [verify_signers_import_failed _ _ _ h, verify_signers_import_failed _ _ _ h]

/-- Levels that are not signed data do not take part in the result: dropping
them from the level list leaves the result of the level loop unchanged. -/
theorem check_message_loop_filter (verbose : Int) (ls : List NSSCMSContentInfo) :
    ∀ i j, (check_message_loop verbose i ls).1 =
      (check_message_loop verbose j
        (ls.filter (fun l => decide (l.type_tag = SEC_OID_PKCS7_SIGNED_DATA)))).1 := by
  induction ls with
  | nil => intro i j; rfl
  | cons l ls ih =>
    intro i j
    by_cases ht : l.type_tag = SEC_OID_PKCS7_SIGNED_DATA
    · rw [List.filter_cons_of_pos (by simpa using ht)]
      by_cases hok : (verify_signers verbose i l.content).1 = P7V_OK
      · have hok2 : (verify_signers verbose j l.content).1 = P7V_OK := by
          rw [verify_signers_index verbose l.content j i]; exact hok
        rw [check_message_loop_cons_pass _ _ _ _ ht hok,
          check_message_loop_cons_pass _ _ _ _ ht hok2]
        exact ih (i + 1) (j + 1)
      · have hok2 : (verify_signers verbose j l.content).1 ≠ P7V_OK := by
          rw [verify_signers_index verbose l.content j i]; exact hok
        rw [check_message_loop_cons_fail _ _ _ _ ht hok,
          check_message_loop_cons_fail _ _ _ _ ht hok2]
        exact verify_signers_index verbose l.content i j
    · rw [List.filter_cons_of_neg (by simpa using ht), check_message_loop_cons_other _ _ _ _ ht]
      exact ih (i + 1) j

theorem check_message_loop_verified_bound (verbose : Int) (ls : List NSSCMSContentInfo) :
    ∀ i, ∀ p ∈ verified_signers (check_message_loop verbose i ls).2,
      i ≤ p.1 ∧ p.1 < i + ls.length := by
  induction ls with
  | nil => intro i; simp [check_message_loop]
  | cons l ls ih =>
    intro i p hp
    have hrest : ∀ q ∈ verified_signers (check_message_loop verbose (i + 1) ls).2,
        i ≤ q.1 ∧ q.1 < i + (l :: ls).length := by
      intro q hq
      have := ih (i + 1) q hq
      simp only [List.length_cons]
      omega
    have hhere : ∀ q ∈ verified_signers (verify_signers verbose i l.content).2,
        i ≤ q.1 ∧ q.1 < i + (l :: ls).length := by
      intro q hq
      have := verify_signers_verified_bound verbose i l.content q hq
      simp only [List.length_cons]
      omega
    by_cases ht : l.type_tag = SEC_OID_PKCS7_SIGNED_DATA
    · by_cases hok : (verify_signers verbose i l.content).1 = P7V_OK
      · rw [check_message_loop_cons_pass _ _ _ _ ht hok] at hp
        simp only [verified_signers, List.filterMap_append, List.filterMap_cons,
          Effect.verified, List.filterMap_nil, List.nil_append, List.mem_append] at hp
        rcases hp with hp | hp
        · exact hhere p hp
        · exact hrest p hp
      · rw [check_message_loop_cons_fail _ _ _ _ ht hok] at hp
        simp only [verified_signers, List.filterMap_append, List.filterMap_cons,
          Effect.verified, List.filterMap_nil, List.nil_append] at hp
        exact hhere p hp
    · rw [check_message_loop_cons_other _ _ _ _ ht] at hp
      simp only [verified_signers, List.filterMap_append, List.filterMap_cons,
        Effect.verified, List.filterMap_nil, List.nil_append] at hp
      exact hrest p hp

theorem check_message_loop_imported_bound (verbose : Int) (ls : List NSSCMSContentInfo) :
    ∀ i, ∀ n ∈ imported_levels (check_message_loop verbose i ls).2,
      i ≤ n ∧ n < i + ls.length := by
  induction ls with
  | nil => intro i; simp [check_message_loop]
  | cons l ls ih =>
    intro i n hn
    have hrest : ∀ q ∈ imported_levels (check_message_loop verbose (i + 1) ls).2,
        i ≤ q ∧ q < i + (l :: ls).length := by
      intro q hq
      have := ih (i + 1) q hq
      simp only [List.length_cons]
      omega
    have hhere : ∀ q ∈ imported_levels (verify_signers verbose i l.content).2,
        i ≤ q ∧ q < i + (l :: ls).length := by
      intro q hq
      rw [verify_signers_imported, List.mem_singleton] at hq
      simp only [List.length_cons]
      omega
    by_cases ht : l.type_tag = SEC_OID_PKCS7_SIGNED_DATA
    · by_cases hok : (verify_signers verbose i l.content).1 = P7V_OK
      · rw [check_message_loop_cons_pass _ _ _ _ ht hok] at hn
        simp only [imported_levels, List.filterMap_append, List.filterMap_cons,
          Effect.imported, List.filterMap_nil, List.nil_append, List.mem_append] at hn
        rcases hn with hn | hn
        · exact hhere n hn
        · exact hrest n hn
      · rw [check_message_loop_cons_fail _ _ _ _ ht hok] at hn
        simp only [imported_levels, List.filterMap_append, List.filterMap_cons,
          Effect.imported, List.filterMap_nil, List.nil_append] at hn
        exact hhere n hn
    · rw [check_message_loop_cons_other _ _ _ _ ht] at hn
      simp only [imported_levels, List.filterMap_append, List.filterMap_cons,
        Effect.imported, List.filterMap_nil, List.nil_append] at hn
      exact hrest n hn

theorem inspected_levels_cons (e : Effect) (t : List Effect) :
    inspected_levels (e :: t) = e.inspected.toList ++ inspected_levels t := by
  cases h : e.inspected <;> simp [inspected_levels, List.filterMap_cons, h]

theorem check_message_loop_inspected_bound (verbose : Int) (ls : List NSSCMSContentInfo) :
    ∀ i, ∀ n ∈ inspected_levels (check_message_loop verbose i ls).2,
      i ≤ n ∧ n < i + ls.length := by
  induction ls with
  | nil => intro i; simp [check_message_loop]
  | cons l ls ih =>
    intro i n hn
    have hrest : ∀ q ∈ inspected_levels (check_message_loop verbose (i + 1) ls).2,
        i ≤ q ∧ q < i + (l :: ls).length := by
      intro q hq
      have := ih (i + 1) q hq
      simp only [List.length_cons]
      omega
    have hhere : i ≤ i ∧ i < i + (l :: ls).length := by
      simp only [List.length_cons]
      omega
    by_cases ht : l.type_tag = SEC_OID_PKCS7_SIGNED_DATA
    · by_cases hok : (verify_signers verbose i l.content).1 = P7V_OK
      · rw [check_message_loop_cons_pass _ _ _ _ ht hok] at hn
        simp only [inspected_levels_append, inspected_levels_cons, verify_signers_inspected,
          Effect.inspected, Option.toList, inspected_levels_nil, List.append_nil,
          List.nil_append, List.singleton_append, List.mem_cons] at hn
        rcases hn with hn | hn
        · rw [hn]; exact hhere
        · exact hrest n hn
      · rw [check_message_loop_cons_fail _ _ _ _ ht hok] at hn
        simp only [inspected_levels_append, inspected_levels_cons, verify_signers_inspected,
          Effect.inspected, Option.toList, inspected_levels_nil, List.append_nil,
          List.nil_append, List.singleton_append, List.mem_cons, List.not_mem_nil,
          or_false] at hn
        rw [hn]; exact hhere
    · rw [check_message_loop_cons_other _ _ _ _ ht] at hn
      simp only [inspected_levels_append, inspected_levels_cons,
        Effect.inspected, Option.toList, inspected_levels_nil, List.append_nil,
        List.nil_append, List.singleton_append, List.mem_cons] at hn
      rcases hn with hn | hn
      · rw [hn]; exact hhere
      · exact hrest n hn

theorem verified_signers_cons (e : Effect) (t : List Effect) :
    verified_signers (e :: t) = e.verified.toList ++ verified_signers t := by
  cases h : e.verified <;> simp [verified_signers, List.filterMap_cons, h]

theorem imported_levels_cons (e : Effect) (t : List Effect) :
    imported_levels (e :: t) = e.imported.toList ++ imported_levels t := by
  cases h : e.imported <;> simp [imported_levels, List.filterMap_cons, h]

theorem check_message_loop_index (verbose : Int) (ls : List NSSCMSContentInfo) (i j : Nat) :
    (check_message_loop verbose i ls).1 = (check_message_loop verbose j ls).1 := by
  rw [check_message_loop_filter verbose ls i 0, check_message_loop_filter verbose ls j 0]

/-- Taking a level that passes out of the level list leaves the result of the
level loop unchanged. -/
theorem check_message_loop_remove_trusted (verbose : Int) (lv : NSSCMSContentInfo)
    (post : List NSSCMSContentInfo) (hlv : level_trusted lv) (pre : List NSSCMSContentInfo) :
    ∀ i j, (check_message_loop verbose i (pre ++ lv :: post)).1 =
      (check_message_loop verbose j (pre ++ post)).1 := by
  induction pre with
  | nil =>
    intro i j
    rw [List.nil_append, List.nil_append, check_message_loop_cons_trusted _ _ _ _ hlv]
    exact check_message_loop_index verbose post (i + 1) j
  | cons l ls ih =>
    intro i j
    rw [List.cons_append, List.cons_append]
    by_cases ht : l.type_tag = SEC_OID_PKCS7_SIGNED_DATA
    · by_cases hok : (verify_signers verbose i l.content).1 = P7V_OK
      · have hok2 : (verify_signers verbose j l.content).1 = P7V_OK := by
          rw [verify_signers_index verbose l.content j i]; exact hok
        rw [check_message_loop_cons_pass _ _ _ _ ht hok,
          check_message_loop_cons_pass _ _ _ _ ht hok2]
        exact ih (i + 1) (j + 1)
      · have hok2 : (verify_signers verbose j l.content).1 ≠ P7V_OK := by
          rw [verify_signers_index verbose l.content j i]; exact hok
        rw [check_message_loop_cons_fail _ _ _ _ ht hok,
          check_message_loop_cons_fail _ _ _ _ ht hok2]
        exact verify_signers_index verbose l.content i j
    · rw [check_message_loop_cons_other _ _ _ _ ht, check_message_loop_cons_other _ _ _ _ ht]
      exact ih (i + 1) (j + 1)

theorem check_message_signed (verbose : Int) (m : NSSCMSMessage) (h : m.is_signed = true) :
    check_message verbose m =
      ((check_message_loop verbose 0 m.levels).1,
        Effect.NSS_CMSMessage_IsSigned :: Effect.NSS_CMSMessage_ContentLevelCount ::
          (check_message_loop verbose 0 m.levels).2) := by
  simp [check_message, h]

theorem check_message_verified (verbose : Int) (m : NSSCMSMessage) (h : m.is_signed = true) :
    verified_signers (check_message verbose m).2 =
      verified_signers (check_message_loop verbose 0 m.levels).2 := by
  rw [check_message_signed _ _ h]
  simp [verified_signers_cons, Effect.verified]

theorem check_message_imported (verbose : Int) (m : NSSCMSMessage) (h : m.is_signed = true) :
    imported_levels (check_message verbose m).2 =
      imported_levels (check_message_loop verbose 0 m.levels).2 := by
  rw [check_message_signed _ _ h]
  simp [imported_levels_cons, Effect.imported]

/-- C2. Fail-fast over signers.  In a message reported as signed whose
certificate imports all succeed, let signer `spre.length` of level
`pre.length` be the first, in level order and then signer order, whose
verification does not return `SECSuccess`.  Then `check_message` returns
`P7V_VERIFICATION_FAILED`, the signers it verifies at that level are exactly
those of index 0 to `spre.length`, in that order, and it neither verifies a
signer nor imports certificates at any later level. -/
theorem check_message_fail_fast (verbose : Int) (m : NSSCMSMessage)
    (pre post : List NSSCMSContentInfo) (lv : NSSCMSContentInfo)
    (spre spost : List NSSCMSSignerInfo) (s : NSSCMSSignerInfo)
    (hsigned : m.is_signed = true)
    (himport : ∀ l ∈ m.levels, l.type_tag = SEC_OID_PKCS7_SIGNED_DATA →
      l.content.import_certs = SECStatus.SECSuccess)
    (hlevels : m.levels = pre ++ lv :: post)
    (htag : lv.type_tag = SEC_OID_PKCS7_SIGNED_DATA)
    (hsigners : lv.content.signer_infos = spre ++ s :: spost)
    (hpre : ∀ l ∈ pre, l.type_tag = SEC_OID_PKCS7_SIGNED_DATA →
      ∀ x ∈ l.content.signer_infos, x.verify = SECStatus.SECSuccess)
    (hspre : ∀ x ∈ spre, x.verify = SECStatus.SECSuccess)
    (hs : s.verify ≠ SECStatus.SECSuccess) :
    (check_message verbose m).1 = P7V_VERIFICATION_FAILED ∧
    (verified_signers (check_message verbose m).2).filter (fun p => decide (p.1 = pre.length)) =
      (List.range (spre.length + 1)).map (Prod.mk pre.length) ∧
    (∀ p ∈ verified_signers (check_message verbose m).2, p.1 ≤ pre.length) ∧
    (∀ n ∈ imported_levels (check_message verbose m).2, n ≤ pre.length) := by
  have hpre2 : ∀ l ∈ pre, level_trusted l := by
    intro l hl ht
    exact ⟨himport l (by rw [hlevels]; exact List.mem_append_left _ hl) ht, hpre l hl ht⟩
  have hlvimp : lv.content.import_certs = SECStatus.SECSuccess :=
    himport lv (by rw [hlevels]; simp) htag
  have hff := verify_signers_loop_first_failure verbose pre.length 0 spre spost s hspre hs
  rw [← hsigners] at hff
  have hvs := verify_signers_imported_ok verbose pre.length lv.content hlvimp
  have hbad : (verify_signers verbose pre.length lv.content).1 ≠ P7V_OK := by
    rw [hvs]; simp only; rw [hff.1]; decide
  have hloop : check_message_loop verbose 0 m.levels =
      (P7V_VERIFICATION_FAILED, (check_message_loop verbose 0 pre).2 ++
        ([Effect.NSS_CMSMessage_ContentLevel pre.length,
            Effect.NSS_CMSContentInfo_GetContentTypeTag pre.length] ++
          Effect.NSS_CMSContentInfo_GetContent pre.length ::
            (verify_signers verbose pre.length lv.content).2)) := by
    rw [hlevels, check_message_loop_append _ _ _ 0 hpre2, Nat.zero_add,
      check_message_loop_cons_fail _ _ _ _ htag hbad]
    simp only [hvs, hff.1]
  have hver : verified_signers (check_message verbose m).2 =
      verified_signers (check_message_loop verbose 0 pre).2 ++
        (List.range (spre.length + 1)).map (Prod.mk pre.length) := by
    rw [check_message_verified _ _ hsigned, hloop]
    simp only [verified_signers_append, verified_signers_cons, verified_signers_nil,
      Effect.verified, Option.toList, List.nil_append, List.append_nil,
      verify_signers_verified, if_pos hlvimp, hff.2.1, List.range_eq_range']
  have himp : imported_levels (check_message verbose m).2 =
      imported_levels (check_message_loop verbose 0 pre).2 ++ [pre.length] := by
    rw [check_message_imported _ _ hsigned, hloop]
    simp only [imported_levels_append, imported_levels_cons, imported_levels_nil,
      Effect.imported, Option.toList, List.nil_append, List.append_nil,
      verify_signers_imported]
  refine ⟨?_, ?_, ?_, ?_⟩
  · rw [check_message_signed _ _ hsigned, hloop]
  · rw [hver, List.filter_append]
    have h1 : (verified_signers (check_message_loop verbose 0 pre).2).filter
        (fun p => decide (p.1 = pre.length)) = [] := by
      rw [List.filter_eq_nil_iff]
      intro p hp
      have := check_message_loop_verified_bound verbose pre 0 p hp
      simp only [decide_eq_true_eq]
      omega
    have h2 : ((List.range (spre.length + 1)).map (Prod.mk pre.length)).filter
        (fun p => decide (p.1 = pre.length)) =
        (List.range (spre.length + 1)).map (Prod.mk pre.length) := by
      rw [List.filter_eq_self]
      intro p hp
      simp only [List.mem_map] at hp
      obtain ⟨a, _, rfl⟩ := hp
      simp
    rw [h1, h2, List.nil_append]
  · intro p hp
    rw [hver, List.mem_append] at hp
    rcases hp with hp | hp
    · have := check_message_loop_verified_bound verbose pre 0 p hp
      omega
    · simp only [List.mem_map] at hp
      obtain ⟨a, _, rfl⟩ := hp
      exact le_refl _
  · intro n hn
    rw [himp, List.mem_append] at hn
    rcases hn with hn | hn
    · have := check_message_loop_imported_bound verbose pre 0 n hn
      omega
    · rw [List.mem_singleton] at hn
      omega

/-- Witness of C2: signers valid, invalid, valid at one level fail after
signers 0 and 1 are verified; signer 2 is never verified. -/
theorem check_message_fail_fast_witness :
    (check_message 0 message_mixed).1 = P7V_VERIFICATION_FAILED ∧
    (verified_signers (check_message 0 message_mixed).2).filter
        (fun p => decide (p.1 = ([] : List NSSCMSContentInfo).length)) =
      (List.range ([signer_valid].length + 1)).map
        (Prod.mk ([] : List NSSCMSContentInfo).length) ∧
    (∀ p ∈ verified_signers (check_message 0 message_mixed).2,
      p.1 ≤ ([] : List NSSCMSContentInfo).length) ∧
    (∀ n ∈ imported_levels (check_message 0 message_mixed).2,
      n ≤ ([] : List NSSCMSContentInfo).length) :=
  check_message_fail_fast 0 message_mixed [] [] level_mixed [signer_valid] [signer_valid]
    signer_invalid rfl (by decide) rfl rfl rfl (by decide) (by decide) (by decide)

/-- C3. Certificate-import failure aborts verification.  In a message reported
as signed, let level `pre.length` be the first signed-data level whose
certificate import does not return `SECSuccess`, every signer of every earlier
signed-data level verifying.  Then `check_message` returns
`P7V_CMS_CERT_IMPORT_FAILED`, it verifies no signer of that level or of a
deeper one, and it imports no certificates of a deeper level. -/
theorem check_message_import_failure (verbose : Int) (m : NSSCMSMessage)
    (pre post : List NSSCMSContentInfo) (lv : NSSCMSContentInfo)
    (hsigned : m.is_signed = true)
    (hlevels : m.levels = pre ++ lv :: post)
    (htag : lv.type_tag = SEC_OID_PKCS7_SIGNED_DATA)
    (himp : lv.content.import_certs ≠ SECStatus.SECSuccess)
    (hpre : ∀ l ∈ pre, l.type_tag = SEC_OID_PKCS7_SIGNED_DATA →
      l.content.import_certs = SECStatus.SECSuccess ∧
      ∀ x ∈ l.content.signer_infos, x.verify = SECStatus.SECSuccess) :
    (check_message verbose m).1 = P7V_CMS_CERT_IMPORT_FAILED ∧
    (∀ p ∈ verified_signers (check_message verbose m).2, p.1 < pre.length) ∧
    (∀ n ∈ imported_levels (check_message verbose m).2, n ≤ pre.length) := by
  have hpre2 : ∀ l ∈ pre, level_trusted l := hpre
  have hvs := verify_signers_import_failed verbose pre.length lv.content himp
  have hbad : (verify_signers verbose pre.length lv.content).1 ≠ P7V_OK := by
    rw [hvs]
    exact (by decide : P7V_CMS_CERT_IMPORT_FAILED ≠ P7V_OK)
  have hloop : check_message_loop verbose 0 m.levels =
      (P7V_CMS_CERT_IMPORT_FAILED, (check_message_loop verbose 0 pre).2 ++
        ([Effect.NSS_CMSMessage_ContentLevel pre.length,
            Effect.NSS_CMSContentInfo_GetContentTypeTag pre.length] ++
          Effect.NSS_CMSContentInfo_GetContent pre.length ::
            [Effect.NSS_CMSSignedData_ImportCerts pre.length])) := by
    rw [hlevels, check_message_loop_append _ _ _ 0 hpre2, Nat.zero_add,
      check_message_loop_cons_fail _ _ _ _ htag hbad, hvs]
  refine ⟨?_, ?_, ?_⟩
  · rw [check_message_signed _ _ hsigned, hloop]
  · intro p hp
    rw [check_message_verified _ _ hsigned, hloop] at hp
    simp only [verified_signers_append, verified_signers_cons, verified_signers_nil,
      Effect.verified, Option.toList, List.nil_append, List.append_nil] at hp
    have := check_message_loop_verified_bound verbose pre 0 p hp
    omega
  · intro n hn
    rw [check_message_imported _ _ hsigned, hloop] at hn
    simp only [imported_levels_append, imported_levels_cons, imported_levels_nil,
      Effect.imported, Option.toList, List.nil_append, List.append_nil,
      List.mem_append, List.mem_singleton] at hn
    rcases hn with hn | hn
    · have := check_message_loop_imported_bound verbose pre 0 n hn
      omega
    · omega

/-- Witness of C3: the second of three signed levels fails its import; the
first level is verified, the second and third are not. -/
theorem check_message_import_failure_witness :
    (check_message 0 message_no_import).1 = P7V_CMS_CERT_IMPORT_FAILED ∧
    (∀ p ∈ verified_signers (check_message 0 message_no_import).2,
      p.1 < [level_good].length) ∧
    (∀ n ∈ imported_levels (check_message 0 message_no_import).2,
      n ≤ [level_good].length) :=
  check_message_import_failure 0 message_no_import [level_good] [level_good] level_no_import
    rfl rfl rfl (by decide) (by decide)

/-- C4. The result of `check_message` is the reference trust decision.  For a
message reported as signed it is `P7V_OK` exactly when every signed-data level
imports its certificates and has all its signers verify; any other result is
`P7V_VERIFICATION_FAILED` or `P7V_CMS_CERT_IMPORT_FAILED`; dropping the levels
of another content type leaves the result unchanged; and so does dropping a
signed-data level with no signer whose import succeeds. -/
theorem check_message_reference (verbose : Int) (m : NSSCMSMessage)
    (hsigned : m.is_signed = true) :
    ((check_message verbose m).1 = P7V_OK ↔
      ∀ l ∈ m.levels, l.type_tag = SEC_OID_PKCS7_SIGNED_DATA →
        l.content.import_certs = SECStatus.SECSuccess ∧
        ∀ x ∈ l.content.signer_infos, x.verify = SECStatus.SECSuccess) ∧
    ((check_message verbose m).1 = P7V_OK ∨
      (check_message verbose m).1 = P7V_VERIFICATION_FAILED ∨
      (check_message verbose m).1 = P7V_CMS_CERT_IMPORT_FAILED) ∧
    (check_message verbose m).1 =
      (check_message verbose ⟨true,
        m.levels.filter (fun l => decide (l.type_tag = SEC_OID_PKCS7_SIGNED_DATA))⟩).1 ∧
    (∀ pre post lv, m.levels = pre ++ lv :: post →
      lv.type_tag = SEC_OID_PKCS7_SIGNED_DATA →
      lv.content.import_certs = SECStatus.SECSuccess → lv.content.signer_infos = [] →
      (check_message verbose m).1 = (check_message verbose ⟨true, pre ++ post⟩).1) := by
  rw [check_message_signed _ _ hsigned]
  refine ⟨?_, ?_, ?_, ?_⟩
  · exact check_message_loop_ok_iff verbose m.levels 0
  · exact check_message_loop_result verbose m.levels 0
  · rw [check_message_signed _ _ rfl]
    exact check_message_loop_filter verbose m.levels 0 0
  · intro pre post lv hl _ himp hnil
    rw [check_message_signed _ _ rfl, hl]
    have hlv : level_trusted lv := by
      intro _
      refine ⟨himp, ?_⟩
      rw [hnil]
      intro x hx
      cases hx
    exact check_message_loop_remove_trusted verbose lv post hlv pre 0 0

/-- Witness of C4: a signed message with one good signed level and one data
level is accepted. -/
theorem check_message_reference_witness : (check_message 0 message_good).1 = P7V_OK :=
  (check_message_reference 0 message_good rfl).1.2 (by decide)

/-- C5. Skipping verification.  When `NSS_CMSDecoder_Finish` yields a message,
`decoder_finish` with a non-zero `skip_verification` returns `P7V_OK` whatever
the message holds and neither inspects a level, imports certificates nor
verifies a signer; with `skip_verification` equal to zero it returns the result
of `check_message` on that message. -/
theorem decoder_finish_skip_verification (verbose : Int) (decoder : p7v_decoder_t)
    (skip_verification : Int) (m : NSSCMSMessage) :
    (skip_verification ≠ 0 →
      (decoder_finish verbose decoder skip_verification (some m)).1 = P7V_OK ∧
      inspected_levels (decoder_finish verbose decoder skip_verification (some m)).2 = [] ∧
      imported_levels (decoder_finish verbose decoder skip_verification (some m)).2 = [] ∧
      verified_signers (decoder_finish verbose decoder skip_verification (some m)).2 = []) ∧
    (skip_verification = 0 →
      (decoder_finish verbose decoder skip_verification (some m)).1 =
        (check_message verbose m).1) := by
  constructor
  · intro h
    by_cases hv : verbose = 0 <;> by_cases ha : decoder.p_arena = 0 <;>
      simp [decoder_finish, h, hv, ha, inspected_levels_cons, imported_levels_cons,
        verified_signers_cons, Effect.inspected, Effect.imported, Effect.verified]
  · intro h
    simp [decoder_finish, h]

/-- Witness of C5: the message whose second signer is invalid is accepted when
verification is skipped and rejected when it is not. -/
theorem decoder_finish_skip_verification_witness :
    (decoder_finish 0 decoder_ready 1 (some message_mixed)).1 = P7V_OK ∧
    (decoder_finish 0 decoder_ready 0 (some message_mixed)).1 =
      (check_message 0 message_mixed).1 :=
  ⟨((decoder_finish_skip_verification 0 decoder_ready 1 message_mixed).1 (by decide)).1,
    (decoder_finish_skip_verification 0 decoder_ready 0 message_mixed).2 rfl⟩

/-- C6. Unsigned pass-through.  For a message that `NSS_CMSMessage_IsSigned`
reports as not signed, `check_message` returns `P7V_OK` and its only call is
that query: no content level is inspected, no certificate imported, no signer
verified.  So `decoder_finish` with verification enabled returns `P7V_OK`. -/
theorem check_message_unsigned (verbose : Int) (decoder : p7v_decoder_t) (m : NSSCMSMessage)
    (h : m.is_signed = false) :
    check_message verbose m = (P7V_OK, [Effect.NSS_CMSMessage_IsSigned]) ∧
    (decoder_finish verbose decoder 0 (some m)).1 = P7V_OK := by
  have hc : check_message verbose m = (P7V_OK, [Effect.NSS_CMSMessage_IsSigned]) := by
    simp [check_message, h]
  exact ⟨hc, by simp [decoder_finish, hc]⟩

/-- Witness of C6: an unsigned message is accepted even though one of its
levels holds an invalid signer. -/
theorem check_message_unsigned_witness :
    check_message 0 message_unsigned = (P7V_OK, [Effect.NSS_CMSMessage_IsSigned]) ∧
    (decoder_finish 0 decoder_ready 0 (some message_unsigned)).1 = P7V_OK :=
  check_message_unsigned 0 decoder_ready message_unsigned rfl

/-! ## The content callback and the read loop -/

theorem content_cb_ok (d : p7v_decoder_t) (len accepted : Nat)
    (h : fwrite len 1 accepted = 1) : (content_cb d len accepted).1 = d := by
  simp [content_cb, h]

theorem content_cb_failed (d : p7v_decoder_t) (len accepted : Nat)
    (h : fwrite len 1 accepted ≠ 1) : (content_cb d len accepted).1.write_error = 1 := by
  simp [content_cb, h]

theorem content_cb_sticky (d : p7v_decoder_t) (len accepted : Nat)
    (h : d.write_error = 1) : (content_cb d len accepted).1.write_error = 1 := by
  by_cases hw : fwrite len 1 accepted = 1
  · rw [content_cb_ok d len accepted hw]; exact h
  · exact content_cb_failed d len accepted hw

theorem content_cb_trace (d : p7v_decoder_t) (len accepted : Nat) :
    (content_cb d len accepted).2 = [Effect.fwrite len] := by
  by_cases h : fwrite len 1 accepted = 1 <;> simp [content_cb, h]

theorem run_callbacks_sticky (ws : List (Nat × Nat)) :
    ∀ d : p7v_decoder_t, d.write_error = 1 → (run_callbacks d ws).1.write_error = 1 := by
  induction ws with
  | nil => intro d h; exact h
  | cons w ws ih =>
    intro d h
    simp only [run_callbacks]
    exact ih _ (content_cb_sticky d w.1 w.2 h)

theorem run_callbacks_append (pre post : List (Nat × Nat)) :
    ∀ d : p7v_decoder_t, (run_callbacks d (pre ++ post)).1 =
      (run_callbacks (run_callbacks d pre).1 post).1 := by
  induction pre with
  | nil => intro d; rfl
  | cons w ws ih =>
    intro d
    simp only [List.cons_append, run_callbacks]
    exact ih _

theorem run_callbacks_ok (ws : List (Nat × Nat)) :
    ∀ d : p7v_decoder_t, writes_ok ws → (run_callbacks d ws).1 = d := by
  induction ws with
  | nil => intro d _; rfl
  | cons w ws ih =>
    intro d h
    have h1 : fwrite w.1 1 w.2 = 1 := h w (List.mem_cons_self _ _)
    have h2 : writes_ok ws := fun x hx => h x (List.mem_cons_of_mem _ hx)
    simp only [run_callbacks, content_cb_ok d w.1 w.2 h1]
    exact ih d h2

theorem run_callbacks_failed (ws : List (Nat × Nat)) :
    ∀ d : p7v_decoder_t, ¬ writes_ok ws → (run_callbacks d ws).1.write_error = 1 := by
  induction ws with
  | nil => intro d h; exact absurd (fun w hw => by cases hw) h
  | cons w ws ih =>
    intro d h
    simp only [run_callbacks]
    by_cases h1 : fwrite w.1 1 w.2 = 1
    · apply ih
      intro h2
      apply h
      intro x hx
      rcases List.mem_cons.1 hx with rfl | hx
      · exact h1
      · exact h2 x hx
    · exact run_callbacks_sticky ws _ (content_cb_failed d w.1 w.2 h1)

theorem run_callbacks_streams (ws : List (Nat × Nat)) :
    ∀ d : p7v_decoder_t, ∀ e ∈ (run_callbacks d ws).2, e.streams = true ∧ e.fed = none := by
  induction ws with
  | nil => intro d e he; cases he
  | cons w ws ih =>
    intro d e he
    simp only [run_callbacks, content_cb_trace, List.singleton_append, List.mem_cons] at he
    rcases he with rfl | he
    · exact ⟨rfl, rfl⟩
    · exact ih _ e he

theorem decoder_feed_result (n : Nat) (d : p7v_decoder_t) (c : Read) :
    (decoder_feed n d c).1 =
      if c.update = SECStatus.SECSuccess then P7V_OK else P7V_CMS_DECODER_UPDATE_FAILED := rfl

theorem decoder_feed_state (n : Nat) (d : p7v_decoder_t) (c : Read) :
    (decoder_feed n d c).2.1 = (run_callbacks d c.writes).1 := rfl

theorem decoder_feed_trace (n : Nat) (d : p7v_decoder_t) (c : Read) :
    (decoder_feed n d c).2.2 = Effect.NSS_CMSDecoder_Update n :: (run_callbacks d c.writes).2 := rfl

theorem fed_chunks_nil : fed_chunks [] = [] := rfl

theorem fed_chunks_append (a b : List Effect) :
    fed_chunks (a ++ b) = fed_chunks a ++ fed_chunks b := by
  simp [fed_chunks]

theorem fed_chunks_cons (e : Effect) (t : List Effect) :
    fed_chunks (e :: t) = e.fed.toList ++ fed_chunks t := by
  cases h : e.fed <;> simp [fed_chunks, List.filterMap_cons, h]

theorem filterMap_eq_nil_of_forall {α β : Type} (f : α → Option β) (t : List α)
    (h : ∀ e ∈ t, f e = none) : t.filterMap f = [] := by
  induction t with
  | nil => rfl
  | cons a t ih =>
    rw [List.filterMap_cons, h a (List.mem_cons_self _ _)]
    exact ih (fun e he => h e (List.mem_cons_of_mem _ he))

theorem decoder_feed_fed (n : Nat) (d : p7v_decoder_t) (c : Read) :
    fed_chunks (decoder_feed n d c).2.2 = [n] := by
  rw [decoder_feed_trace, fed_chunks_cons]
  have : fed_chunks (run_callbacks d c.writes).2 = [] :=
    filterMap_eq_nil_of_forall _ _ (fun e he => (run_callbacks_streams c.writes d e he).2)
  rw [this]
  rfl

theorem decoder_feed_streams (n : Nat) (d : p7v_decoder_t) (c : Read) :
    ∀ e ∈ (decoder_feed n d c).2.2, e.streams = true := by
  intro e he
  rw [decoder_feed_trace, List.mem_cons] at he
  rcases he with rfl | he
  · rfl
  · exact (run_callbacks_streams c.writes d e he).1

theorem stream_ok_cons (c : Read) (rs : List Read) :
    stream_ok (c :: rs) ↔
      (0 < c.r → c.update = SECStatus.SECSuccess ∧ writes_ok c.writes) ∧ stream_ok rs := by
  simp [stream_ok]

theorem read_loop_cons_skip (n : Nat) (c : Read) (rs : List Read) (d : p7v_decoder_t)
    (res : p7v_result_t) (h : ¬ 0 < c.r) :
    read_loop n (c :: rs) d res =
      ((read_loop (n + 1) rs d res).1, (read_loop (n + 1) rs d res).2.1,
        Effect.fread n :: (read_loop (n + 1) rs d res).2.2) := by
  simp [read_loop, h]

theorem read_loop_cons_update_failed (n : Nat) (c : Read) (rs : List Read)
    (d : p7v_decoder_t) (res : p7v_result_t) (h : 0 < c.r)
    (hu : c.update ≠ SECStatus.SECSuccess) :
    read_loop n (c :: rs) d res =
      (P7V_CMS_DECODER_UPDATE_FAILED, (run_callbacks d c.writes).1,
        Effect.fread n :: (decoder_feed n d c).2.2) := by
  have h1 : (decoder_feed n d c).1 = P7V_CMS_DECODER_UPDATE_FAILED := by
    simp [decoder_feed_result, hu]
  have h2 : P7V_CMS_DECODER_UPDATE_FAILED ≠ P7V_OK := by decide
  rw [read_loop]
  simp only [h, h1, h2, ne_eq, not_false_eq_true, if_true, decoder_feed_state]

theorem read_loop_cons_write_failed (n : Nat) (c : Read) (rs : List Read)
    (d : p7v_decoder_t) (res : p7v_result_t) (h : 0 < c.r)
    (hu : c.update = SECStatus.SECSuccess)
    (hw : (run_callbacks d c.writes).1.write_error ≠ 0) :
    read_loop n (c :: rs) d res =
      (P7V_OUTPUT_WRITE_FAILED, (run_callbacks d c.writes).1,
        Effect.fread n :: (decoder_feed n d c).2.2) := by
  have h1 : (decoder_feed n d c).1 = P7V_OK := by
    simp [decoder_feed_result, hu]
  rw [read_loop]
  simp only [h, h1, ne_eq, not_true_eq_false, if_true, if_false, decoder_feed_state, hw,
    not_false_eq_true]

theorem read_loop_cons_fed (n : Nat) (c : Read) (rs : List Read)
    (d : p7v_decoder_t) (res : p7v_result_t) (h : 0 < c.r)
    (hu : c.update = SECStatus.SECSuccess)
    (hw : (run_callbacks d c.writes).1.write_error = 0) :
    read_loop n (c :: rs) d res =
      ((read_loop (n + 1) rs (run_callbacks d c.writes).1 P7V_OK).1,
        (read_loop (n + 1) rs (run_callbacks d c.writes).1 P7V_OK).2.1,
        Effect.fread n :: (decoder_feed n d c).2.2 ++
          (read_loop (n + 1) rs (run_callbacks d c.writes).1 P7V_OK).2.2) := by
  have h1 : (decoder_feed n d c).1 = P7V_OK := by
    simp [decoder_feed_result, hu]
  rw [read_loop]
  simp only [h, h1, ne_eq, not_true_eq_false, if_true, if_false, decoder_feed_state, hw]

/-- Every call of the read loop is a read, a decoder update or a write. -/
theorem read_loop_streams (rs : List Read) :
    ∀ n d res, ∀ e ∈ (read_loop n rs d res).2.2, e.streams = true := by
  induction rs with
  | nil => intro n d res e he; cases he
  | cons c rs ih =>
    intro n d res e he
    by_cases h : 0 < c.r
    · by_cases hu : c.update = SECStatus.SECSuccess
      · by_cases hw : (run_callbacks d c.writes).1.write_error = 0
        · rw [read_loop_cons_fed n c rs d res h hu hw] at he
          simp only [List.cons_append, List.mem_cons, List.mem_append] at he
          rcases he with rfl | he | he
          · rfl
          · exact decoder_feed_streams n d c e he
          · exact ih _ _ _ e he
        · rw [read_loop_cons_write_failed n c rs d res h hu hw] at he
          simp only [List.mem_cons] at he
          rcases he with rfl | he
          · rfl
          · exact decoder_feed_streams n d c e he
      · rw [read_loop_cons_update_failed n c rs d res h hu] at he
        simp only [List.mem_cons] at he
        rcases he with rfl | he
        · rfl
        · exact decoder_feed_streams n d c e he
    · rw [read_loop_cons_skip n c rs d res h] at he
      simp only [List.mem_cons] at he
      rcases he with rfl | he
      · rfl
      · exact ih _ _ _ e he

/-- The chunks the read loop feeds are chunks of its own iterations. -/
theorem read_loop_fed_bound (rs : List Read) :
    ∀ n d res, ∀ k ∈ fed_chunks (read_loop n rs d res).2.2, n ≤ k ∧ k < n + rs.length := by
  induction rs with
  | nil => intro n d res k hk; cases hk
  | cons c rs ih =>
    intro n d res k hk
    have hrest : ∀ d2 res2, ∀ q ∈ fed_chunks (read_loop (n + 1) rs d2 res2).2.2,
        n ≤ q ∧ q < n + (c :: rs).length := by
      intro d2 res2 q hq
      have := ih (n + 1) d2 res2 q hq
      simp only [List.length_cons]
      omega
    have hhere : n ≤ n ∧ n < n + (c :: rs).length := by
      simp only [List.length_cons]
      omega
    by_cases h : 0 < c.r
    · by_cases hu : c.update = SECStatus.SECSuccess
      · by_cases hw : (run_callbacks d c.writes).1.write_error = 0
        · rw [read_loop_cons_fed n c rs d res h hu hw] at hk
          simp only [fed_chunks_cons, fed_chunks_append, decoder_feed_fed, Effect.fed,
            Option.toList, List.nil_append, List.singleton_append, List.mem_cons] at hk
          rcases hk with rfl | hk
          · exact hhere
          · exact hrest _ _ k hk
        · rw [read_loop_cons_write_failed n c rs d res h hu hw] at hk
          simp only [fed_chunks_cons, decoder_feed_fed, Effect.fed,
            Option.toList, List.nil_append, List.mem_singleton] at hk
          rw [hk]; exact hhere
      · rw [read_loop_cons_update_failed n c rs d res h hu] at hk
        simp only [fed_chunks_cons, decoder_feed_fed, Effect.fed,
          Option.toList, List.nil_append, List.mem_singleton] at hk
        rw [hk]; exact hhere
    · rw [read_loop_cons_skip n c rs d res h] at hk
      simp only [fed_chunks_cons, Effect.fed, Option.toList, List.nil_append] at hk
      exact hrest _ _ k hk

/-- A stream that goes through leaves the loop with `P7V_OK` and the decoder
descriptor as it was. -/
theorem read_loop_ok (rs : List Read) :
    ∀ n d, d.write_error = 0 → stream_ok rs →
      (read_loop n rs d P7V_OK).1 = P7V_OK ∧ (read_loop n rs d P7V_OK).2.1 = d := by
  induction rs with
  | nil => intro n d _ _; exact ⟨rfl, rfl⟩
  | cons c rs ih =>
    intro n d hd h
    rw [stream_ok_cons] at h
    by_cases hr : 0 < c.r
    · have hc := h.1 hr
      have hs : (run_callbacks d c.writes).1 = d := run_callbacks_ok c.writes d hc.2
      rw [read_loop_cons_fed n c rs d P7V_OK hr hc.1 (by rw [hs]; exact hd), hs]
      exact ih (n + 1) d hd h.2
    · rw [read_loop_cons_skip n c rs d P7V_OK hr]
      exact ih (n + 1) d hd h.2

/-- A stream that goes through its first iterations behaves on them as if
they were not there, except for the calls they make. -/
theorem read_loop_append (pre rest : List Read) :
    ∀ n d, d.write_error = 0 → stream_ok pre →
      read_loop n (pre ++ rest) d P7V_OK =
        ((read_loop (n + pre.length) rest d P7V_OK).1,
          (read_loop (n + pre.length) rest d P7V_OK).2.1,
          (read_loop n pre d P7V_OK).2.2 ++ (read_loop (n + pre.length) rest d P7V_OK).2.2) := by
  induction pre with
  | nil => intro n d _ _; simp [read_loop]
  | cons c rs ih =>
    intro n d hd h
    rw [stream_ok_cons] at h
    by_cases hr : 0 < c.r
    · have hc := h.1 hr
      have hs : (run_callbacks d c.writes).1 = d := run_callbacks_ok c.writes d hc.2
      rw [List.cons_append, read_loop_cons_fed n c _ d P7V_OK hr hc.1 (by rw [hs]; exact hd),
        read_loop_cons_fed n c _ d P7V_OK hr hc.1 (by rw [hs]; exact hd), hs,
        ih (n + 1) d hd h.2]
      simp [Nat.add_assoc, Nat.add_comm 1]
    · rw [List.cons_append, read_loop_cons_skip n c _ d P7V_OK hr,
        read_loop_cons_skip n c _ d P7V_OK hr, ih (n + 1) d hd h.2]
      simp [Nat.add_assoc, Nat.add_comm 1]

/-- The loop ends with `P7V_OK` only when the stream goes through. -/
theorem read_loop_ok_iff (rs : List Read) :
    ∀ n d, d.write_error = 0 → ((read_loop n rs d P7V_OK).1 = P7V_OK ↔ stream_ok rs) := by
  induction rs with
  | nil => intro n d _; simp [read_loop, stream_ok]
  | cons c rs ih =>
    intro n d hd
    rw [stream_ok_cons]
    by_cases hr : 0 < c.r
    · by_cases hu : c.update = SECStatus.SECSuccess
      · by_cases hw : writes_ok c.writes
        · have hs : (run_callbacks d c.writes).1 = d := run_callbacks_ok c.writes d hw
          rw [read_loop_cons_fed n c rs d P7V_OK hr hu (by rw [hs]; exact hd), hs,
            ih (n + 1) d hd]
          simp [hu, hw]
        · have hf := run_callbacks_failed c.writes d hw
          rw [read_loop_cons_write_failed n c rs d P7V_OK hr hu (by rw [hf]; decide)]
          simp [hw, hr, P7V_OUTPUT_WRITE_FAILED, P7V_OK]
      · rw [read_loop_cons_update_failed n c rs d P7V_OK hr hu]
        simp [hu, hr, P7V_CMS_DECODER_UPDATE_FAILED, P7V_OK]
    · rw [read_loop_cons_skip n c rs d P7V_OK hr, ih (n + 1) d hd]
      simp [hr]

/-! ## The run as a whole -/

theorem count_eq_zero_of_class (p : Effect → Bool) (a : Effect) (ha : p a = false)
    (t : List Effect) (h : ∀ e ∈ t, p e = true) : t.count a = 0 := by
  apply List.count_eq_zero_of_not_mem
  intro hm
  rw [h a hm] at ha
  cases ha

theorem filterMap_eq_nil_of_class {β : Type} (p : Effect → Bool) (f : Effect → Option β)
    (hf : ∀ e, p e = true → f e = none) (t : List Effect) (h : ∀ e ∈ t, p e = true) :
    t.filterMap f = [] :=
  filterMap_eq_nil_of_forall f t (fun e he => hf e (h e he))

theorem opens_freed (e : Effect) (h : e.opens = true) : e.freed = none := by
  cases e <;> first | rfl | cases h

theorem opens_fed (e : Effect) (h : e.opens = true) : e.fed = none := by
  cases e <;> first | rfl | cases h

theorem opens_unlinked (e : Effect) (h : e.opens = true) : e.unlinked = none := by
  cases e <;> first | rfl | cases h

theorem streams_freed (e : Effect) (h : e.streams = true) : e.freed = none := by
  cases e <;> first | rfl | cases h

theorem streams_unlinked (e : Effect) (h : e.streams = true) : e.unlinked = none := by
  cases e <;> first | rfl | cases h

theorem checks_freed (e : Effect) (h : e.checks = true) : e.freed = none := by
  cases e <;> first | rfl | cases h

theorem checks_fed (e : Effect) (h : e.checks = true) : e.fed = none := by
  cases e <;> first | rfl | cases h

theorem checks_unlinked (e : Effect) (h : e.checks = true) : e.unlinked = none := by
  cases e <;> first | rfl | cases h

theorem when_verbose_opens (verbose : Int) (msg : Diag) :
    ∀ e ∈ when_verbose verbose msg, e.opens = true := by
  intro e he
  unfold when_verbose at he
  split at he
  · rw [List.mem_singleton] at he; rw [he]; rfl
  · cases he

theorem when_verbose_checks (verbose : Int) (msg : Diag) :
    ∀ e ∈ when_verbose verbose msg, e.checks = true := by
  intro e he
  unfold when_verbose at he
  split at he
  · rw [List.mem_singleton] at he; rw [he]; rfl
  · cases he

theorem verify_signer_checks (verbose : Int) (i signer : Nat) (s : NSSCMSSignerInfo) :
    ∀ e ∈ (verify_signer verbose i signer s).2, e.checks = true := by
  intro e he
  unfold verify_signer at he
  by_cases hv : verbose = 0 <;> cases hc : s.common_name <;>
    simp [hv, hc] at he <;> rcases he with rfl | rfl | rfl | rfl | rfl | rfl <;> rfl

theorem verify_signers_loop_checks (verbose : Int) (i : Nat) (ss : List NSSCMSSignerInfo) :
    ∀ k, ∀ e ∈ (verify_signers_loop verbose i k ss).2, e.checks = true := by
  induction ss with
  | nil => intro k e he; cases he
  | cons s ss ih =>
    intro k e he
    by_cases h : s.verify = SECStatus.SECSuccess
    · rw [verify_signers_loop_cons_pass _ _ _ _ _ h, List.mem_append] at he
      rcases he with he | he
      · exact verify_signer_checks verbose i k s e he
      · exact ih (k + 1) e he
    · rw [verify_signers_loop_cons_fail _ _ _ _ _ h] at he
      exact verify_signer_checks verbose i k s e he

theorem verify_signers_checks (verbose : Int) (i : Nat) (sd : NSSCMSSignedData) :
    ∀ e ∈ (verify_signers verbose i sd).2, e.checks = true := by
  intro e he
  by_cases h : sd.import_certs = SECStatus.SECSuccess
  · rw [verify_signers_imported_ok _ _ _ h] at he
    simp only [List.mem_cons] at he
    rcases he with rfl | rfl | he
    · rfl
    · rfl
    · exact verify_signers_loop_checks verbose i sd.signer_infos 0 e he
  · rw [verify_signers_import_failed _ _ _ h, List.mem_singleton] at he
    rw [he]; rfl

theorem check_message_loop_checks (verbose : Int) (ls : List NSSCMSContentInfo) :
    ∀ i, ∀ e ∈ (check_message_loop verbose i ls).2, e.checks = true := by
  induction ls with
  | nil => intro i e he; cases he
  | cons l ls ih =>
    intro i e he
    by_cases ht : l.type_tag = SEC_OID_PKCS7_SIGNED_DATA
    · by_cases hok : (verify_signers verbose i l.content).1 = P7V_OK
      · rw [check_message_loop_cons_pass _ _ _ _ ht hok] at he
        simp only [List.cons_append, List.nil_append, List.mem_cons, List.mem_append] at he
        rcases he with rfl | rfl | rfl | he | he
        · rfl
        · rfl
        · rfl
        · exact verify_signers_checks verbose i l.content e he
        · exact ih (i + 1) e he
      · rw [check_message_loop_cons_fail _ _ _ _ ht hok] at he
        simp only [List.cons_append, List.nil_append, List.mem_cons] at he
        rcases he with rfl | rfl | rfl | he
        · rfl
        · rfl
        · rfl
        · exact verify_signers_checks verbose i l.content e he
    · rw [check_message_loop_cons_other _ _ _ _ ht] at he
      simp only [List.cons_append, List.nil_append, List.mem_cons] at he
      rcases he with rfl | rfl | he
      · rfl
      · rfl
      · exact ih (i + 1) e he

/-- Every call of `check_message` is a query on the message, a diagnostic line
or the release of a signer name. -/
theorem check_message_checks (verbose : Int) (m : NSSCMSMessage) :
    ∀ e ∈ (check_message verbose m).2, e.checks = true := by
  intro e he
  cases hs : m.is_signed
  · simp only [check_message, hs, List.mem_singleton] at he
    simp at he
    rw [he]; rfl
  · rw [check_message_signed _ _ hs] at he
    simp only [List.mem_cons] at he
    rcases he with rfl | rfl | he
    · rfl
    · rfl
    · exact check_message_loop_checks verbose m.levels 0 e he

/-- The calls `decoder_finish` makes between finishing the decoder and
releasing the arena. -/
theorem decoder_finish_trace (verbose : Int) (decoder : p7v_decoder_t) (skip : Int)
    (p_message : Option NSSCMSMessage) :
    ∃ body : List Effect, (∀ e ∈ body, e.checks = true) ∧
      (decoder_finish verbose decoder skip p_message).2 =
        Effect.NSS_CMSDecoder_Finish ::
          (body ++ (if p_message.isSome then [Effect.NSS_CMSMessage_Destroy] else []) ++
            (if decoder.p_arena ≠ 0 then [Effect.PORT_FreeArena decoder.p_arena] else []) ++
            [Effect.NSS_Shutdown]) := by
  cases p_message with
  | none =>
    refine ⟨[], ?_, ?_⟩
    · intro e he; cases he
    · simp [decoder_finish]
  | some m =>
    by_cases hs : skip = 0
    · exact ⟨(check_message verbose m).2, check_message_checks verbose m,
        by simp [decoder_finish, hs]⟩
    · refine ⟨when_verbose verbose Diag.verification_skipped,
        when_verbose_checks verbose Diag.verification_skipped, ?_⟩
      by_cases hv : verbose = 0 <;> simp [decoder_finish, hs, hv, when_verbose]

theorem decoder_finish_shutdown (verbose : Int) (decoder : p7v_decoder_t) (skip : Int)
    (p_message : Option NSSCMSMessage) :
    (decoder_finish verbose decoder skip p_message).2.count Effect.NSS_Shutdown = 1 := by
  obtain ⟨body, hb, ht⟩ := decoder_finish_trace verbose decoder skip p_message
  rw [ht]
  have h0 := count_eq_zero_of_class Effect.checks Effect.NSS_Shutdown rfl body hb
  cases p_message <;> by_cases ha : decoder.p_arena = 0 <;>
    simp [List.count_cons, List.count_append, h0, ha]

theorem decoder_finish_finish (verbose : Int) (decoder : p7v_decoder_t) (skip : Int)
    (p_message : Option NSSCMSMessage) :
    (decoder_finish verbose decoder skip p_message).2.count Effect.NSS_CMSDecoder_Finish = 1 := by
  obtain ⟨body, hb, ht⟩ := decoder_finish_trace verbose decoder skip p_message
  rw [ht]
  have h0 := count_eq_zero_of_class Effect.checks Effect.NSS_CMSDecoder_Finish rfl body hb
  cases p_message <;> by_cases ha : decoder.p_arena = 0 <;>
    simp [List.count_cons, List.count_append, h0, ha]

theorem freed_arenas_nil : freed_arenas [] = [] := rfl

theorem unlinked_paths_nil : unlinked_paths [] = [] := rfl

theorem freed_arenas_append (a b : List Effect) :
    freed_arenas (a ++ b) = freed_arenas a ++ freed_arenas b := by
  simp [freed_arenas]

theorem freed_arenas_cons (e : Effect) (t : List Effect) :
    freed_arenas (e :: t) = e.freed.toList ++ freed_arenas t := by
  cases h : e.freed <;> simp [freed_arenas, List.filterMap_cons, h]

theorem unlinked_paths_append (a b : List Effect) :
    unlinked_paths (a ++ b) = unlinked_paths a ++ unlinked_paths b := by
  simp [unlinked_paths]

theorem unlinked_paths_cons (e : Effect) (t : List Effect) :
    unlinked_paths (e :: t) = e.unlinked.toList ++ unlinked_paths t := by
  cases h : e.unlinked <;> simp [unlinked_paths, List.filterMap_cons, h]

theorem decoder_finish_freed (verbose : Int) (decoder : p7v_decoder_t) (skip : Int)
    (p_message : Option NSSCMSMessage) :
    freed_arenas (decoder_finish verbose decoder skip p_message).2 =
      if decoder.p_arena ≠ 0 then [decoder.p_arena] else [] := by
  obtain ⟨body, hb, ht⟩ := decoder_finish_trace verbose decoder skip p_message
  rw [ht]
  have h0 : freed_arenas body = [] :=
    filterMap_eq_nil_of_class Effect.checks Effect.freed checks_freed body hb
  cases p_message <;> by_cases ha : decoder.p_arena = 0 <;>
    simp [freed_arenas_cons, freed_arenas_append, freed_arenas_nil, h0, ha, Effect.freed]

theorem decoder_finish_fed (verbose : Int) (decoder : p7v_decoder_t) (skip : Int)
    (p_message : Option NSSCMSMessage) :
    fed_chunks (decoder_finish verbose decoder skip p_message).2 = [] := by
  obtain ⟨body, hb, ht⟩ := decoder_finish_trace verbose decoder skip p_message
  rw [ht]
  have h0 : fed_chunks body = [] :=
    filterMap_eq_nil_of_class Effect.checks Effect.fed checks_fed body hb
  cases p_message <;> by_cases ha : decoder.p_arena = 0 <;>
    simp [fed_chunks_cons, fed_chunks_append, fed_chunks_nil, h0, ha, Effect.fed]

theorem decoder_finish_unlinked (verbose : Int) (decoder : p7v_decoder_t) (skip : Int)
    (p_message : Option NSSCMSMessage) :
    unlinked_paths (decoder_finish verbose decoder skip p_message).2 = [] := by
  obtain ⟨body, hb, ht⟩ := decoder_finish_trace verbose decoder skip p_message
  rw [ht]
  have h0 : unlinked_paths body = [] :=
    filterMap_eq_nil_of_class Effect.checks Effect.unlinked checks_unlinked body hb
  cases p_message <;> by_cases ha : decoder.p_arena = 0 <;>
    simp [unlinked_paths_cons, unlinked_paths_append, unlinked_paths_nil, h0, ha, Effect.unlinked]

theorem open_input_opens (r : Run) : ∀ e ∈ (open_input r).2, e.opens = true := by
  intro e he
  unfold open_input at he
  cases hi : r.input with
  | none => simp [hi] at he
  | some path =>
    by_cases hf : r.fopen_input = true
    · simp only [hi, hf, if_true, List.mem_cons] at he
      rcases he with rfl | he
      · rfl
      · exact when_verbose_opens _ _ e he
    · simp only [hi, hf, if_false, List.mem_cons] at he
      simp at he
      rcases he with rfl | rfl <;> rfl

theorem open_output_opens (r : Run) : ∀ e ∈ (open_output r).2, e.opens = true := by
  intro e he
  unfold open_output at he
  cases hi : r.output with
  | none => simp [hi] at he
  | some path =>
    by_cases hf : r.fopen_output = true
    · simp only [hi, hf, if_true, List.mem_cons] at he
      rcases he with rfl | he
      · rfl
      · exact when_verbose_opens _ _ e he
    · simp only [hi, hf, if_false, List.mem_cons] at he
      simp at he
      rcases he with rfl | rfl <;> rfl

theorem open_input_some (r : Run) (h : r.input = none ∨ r.fopen_input = true) :
    ∃ fin, (open_input r).1 = some fin := by
  unfold open_input
  cases hi : r.input with
  | none => exact ⟨FILE.stdin, rfl⟩
  | some path =>
    rcases h with h | h
    · rw [hi] at h; cases h
    · exact ⟨FILE.opened path, by simp [h]⟩

theorem open_output_some (r : Run) (h : r.output = none ∨ r.fopen_output = true) :
    ∃ fout, (open_output r).1 = some fout ∧ (fout = FILE.stdout ↔ r.output = none) := by
  unfold open_output
  cases hi : r.output with
  | none => exact ⟨FILE.stdout, rfl, by simp⟩
  | some path =>
    rcases h with h | h
    · rw [hi] at h; cases h
    · exact ⟨FILE.opened path, by simp [h], by simp⟩

/-- With both streams open, `main` is the calls that open them followed by
the rest of the run. -/
theorem main_opened (r : Run) (hin : r.input = none ∨ r.fopen_input = true)
    (hout : r.output = none ∨ r.fopen_output = true) :
    ∃ fin fout head, (∀ e ∈ head, e.opens = true) ∧
      (fout = FILE.stdout ↔ r.output = none) ∧
      main r = ((main_body r fin fout).1, head ++ (main_body r fin fout).2) := by
  obtain ⟨fin, hfin⟩ := open_input_some r hin
  obtain ⟨fout, hfout, hstd⟩ := open_output_some r hout
  refine ⟨fin, fout, when_verbose r.verbose Diag.version ++ (open_input r).2 ++ (open_output r).2,
    ?_, hstd, ?_⟩
  · intro e he
    simp only [List.mem_append] at he
    rcases he with (he | he) | he
    · exact when_verbose_opens _ _ e he
    · exact open_input_opens r e he
    · exact open_output_opens r e he
  · simp only [main, hfin, hfout]

/-- The rest of a run whose set-up succeeds and whose read loop ends with
`P7V_OK`: `decoder_finish` is called and decides the result. -/
theorem main_body_finished (r : Run) (fin fout : FILE)
    (hinit : r.nss_init = SECStatus.SECSuccess)
    (harena : r.new_arena ≠ 0) (hctx : r.decoder_start ≠ 0)
    (hl : (read_loop 0 r.reads ⟨r.new_arena, fout, 0, r.decoder_start⟩ P7V_OK).1 = P7V_OK) :
    ∃ head closes tail, (∀ e ∈ head, e.opens = true) ∧ (∀ e ∈ closes, e.opens = true) ∧
      (∀ e ∈ tail, e.opens = true) ∧
      main_body r fin fout =
        ((decoder_finish r.verbose
            (read_loop 0 r.reads ⟨r.new_arena, fout, 0, r.decoder_start⟩ P7V_OK).2.1
            r.no_verify r.finish).1,
          head ++ (read_loop 0 r.reads ⟨r.new_arena, fout, 0, r.decoder_start⟩ P7V_OK).2.2 ++
            closes ++
            (decoder_finish r.verbose
              (read_loop 0 r.reads ⟨r.new_arena, fout, 0, r.decoder_start⟩ P7V_OK).2.1
              r.no_verify r.finish).2 ++
            (if (decoder_finish r.verbose
                  (read_loop 0 r.reads ⟨r.new_arena, fout, 0, r.decoder_start⟩ P7V_OK).2.1
                  r.no_verify r.finish).1 ≠ P7V_OK ∧ fout ≠ FILE.stdout
              then [Effect.unlink r.output] else []) ++ tail) := by
  refine ⟨[Effect.PR_Init, Effect.NSS_Init] ++ when_verbose r.verbose Diag.initialized ++
      [Effect.PORT_NewArena, Effect.NSS_CMSDecoder_Start r.new_arena],
    (if fout ≠ FILE.stdout then [Effect.fclose fout] else []) ++
      (if fin ≠ FILE.stdin then [Effect.fclose fin] else []),
    (if (decoder_finish r.verbose
          (read_loop 0 r.reads ⟨r.new_arena, fout, 0, r.decoder_start⟩ P7V_OK).2.1
          r.no_verify r.finish).1 ≠ P7V_OK then []
      else when_verbose r.verbose Diag.data_extracted) ++
      when_verbose r.verbose (Diag.exiting_status (decoder_finish r.verbose
          (read_loop 0 r.reads ⟨r.new_arena, fout, 0, r.decoder_start⟩ P7V_OK).2.1
          r.no_verify r.finish).1), ?_, ?_, ?_, ?_⟩
  · intro e he
    simp only [List.mem_append, List.mem_cons, List.not_mem_nil, or_false] at he
    rcases he with ((rfl | rfl) | he) | (rfl | rfl)
    · rfl
    · rfl
    · exact when_verbose_opens _ _ e he
    · rfl
    · rfl
  · intro e he
    by_cases h1 : fout = FILE.stdout <;> by_cases h2 : fin = FILE.stdin <;>
      simp [h1, h2] at he <;> rcases he with rfl | rfl <;> rfl
  · intro e he
    simp only [List.mem_append] at he
    rcases he with he | he
    · split at he
      · cases he
      · exact when_verbose_opens _ _ e he
    · exact when_verbose_opens _ _ e he
  · have hi : init r.nss_init = (P7V_OK, [Effect.PR_Init, Effect.NSS_Init]) := by
      simp [init, hinit]
    have hs : decoder_setup r.uninit_result r.new_arena r.decoder_start fout r.uninit_decoder =
        (P7V_OK, ⟨r.new_arena, fout, 0, r.decoder_start⟩,
          [Effect.PORT_NewArena, Effect.NSS_CMSDecoder_Start r.new_arena]) := by
      simp [decoder_setup, harena, hctx]
    simp only [main_body, hi, hs, hl, ne_eq, not_true_eq_false, if_false, if_true]
    by_cases hF : (decoder_finish r.verbose
        (read_loop 0 r.reads ⟨r.new_arena, fout, 0, r.decoder_start⟩ P7V_OK).2.1
        r.no_verify r.finish).1 = P7V_OK <;> by_cases hstd : fout = FILE.stdout <;>
      simp [hF, hstd]

/-- The rest of a run whose set-up succeeds and whose read loop ends with an
error: `decoder_finish` is not called and the loop's result is the result. -/
theorem main_body_aborted (r : Run) (fin fout : FILE)
    (hinit : r.nss_init = SECStatus.SECSuccess)
    (harena : r.new_arena ≠ 0) (hctx : r.decoder_start ≠ 0)
    (hl : (read_loop 0 r.reads ⟨r.new_arena, fout, 0, r.decoder_start⟩ P7V_OK).1 ≠ P7V_OK) :
    ∃ head closes tail, (∀ e ∈ head, e.opens = true) ∧ (∀ e ∈ closes, e.opens = true) ∧
      (∀ e ∈ tail, e.opens = true) ∧
      main_body r fin fout =
        ((read_loop 0 r.reads ⟨r.new_arena, fout, 0, r.decoder_start⟩ P7V_OK).1,
          head ++ (read_loop 0 r.reads ⟨r.new_arena, fout, 0, r.decoder_start⟩ P7V_OK).2.2 ++
            closes ++ (if fout ≠ FILE.stdout then [Effect.unlink r.output] else []) ++ tail) := by
  refine ⟨[Effect.PR_Init, Effect.NSS_Init] ++ when_verbose r.verbose Diag.initialized ++
      [Effect.PORT_NewArena, Effect.NSS_CMSDecoder_Start r.new_arena],
    (if fout ≠ FILE.stdout then [Effect.fclose fout] else []) ++
      (if fin ≠ FILE.stdin then [Effect.fclose fin] else []),
    when_verbose r.verbose (Diag.exiting_status
      (read_loop 0 r.reads ⟨r.new_arena, fout, 0, r.decoder_start⟩ P7V_OK).1), ?_, ?_, ?_, ?_⟩
  · intro e he
    simp only [List.mem_append, List.mem_cons, List.not_mem_nil, or_false] at he
    rcases he with ((rfl | rfl) | he) | (rfl | rfl)
    · rfl
    · rfl
    · exact when_verbose_opens _ _ e he
    · rfl
    · rfl
  · intro e he
    by_cases h1 : fout = FILE.stdout <;> by_cases h2 : fin = FILE.stdin <;>
      simp [h1, h2] at he <;> rcases he with rfl | rfl <;> rfl
  · exact when_verbose_opens _ _
  · have hi : init r.nss_init = (P7V_OK, [Effect.PR_Init, Effect.NSS_Init]) := by
      simp [init, hinit]
    have hs : decoder_setup r.uninit_result r.new_arena r.decoder_start fout r.uninit_decoder =
        (P7V_OK, ⟨r.new_arena, fout, 0, r.decoder_start⟩,
          [Effect.PORT_NewArena, Effect.NSS_CMSDecoder_Start r.new_arena]) := by
      simp [decoder_setup, harena, hctx]
    simp only [main_body, hi, hs, hl, ne_eq, not_true_eq_false, if_false, if_true,
      not_false_eq_true, List.append_nil, List.append_assoc]

theorem opens_count_shutdown (t : List Effect) (h : ∀ e ∈ t, e.opens = true) :
    t.count Effect.NSS_Shutdown = 0 :=
  count_eq_zero_of_class Effect.opens Effect.NSS_Shutdown rfl t h

theorem opens_count_finish (t : List Effect) (h : ∀ e ∈ t, e.opens = true) :
    t.count Effect.NSS_CMSDecoder_Finish = 0 :=
  count_eq_zero_of_class Effect.opens Effect.NSS_CMSDecoder_Finish rfl t h

theorem opens_freed_arenas (t : List Effect) (h : ∀ e ∈ t, e.opens = true) :
    freed_arenas t = [] :=
  filterMap_eq_nil_of_class Effect.opens Effect.freed opens_freed t h

theorem opens_fed_chunks (t : List Effect) (h : ∀ e ∈ t, e.opens = true) :
    fed_chunks t = [] :=
  filterMap_eq_nil_of_class Effect.opens Effect.fed opens_fed t h

theorem opens_unlinked_paths (t : List Effect) (h : ∀ e ∈ t, e.opens = true) :
    unlinked_paths t = [] :=
  filterMap_eq_nil_of_class Effect.opens Effect.unlinked opens_unlinked t h

theorem read_loop_count_shutdown (rs : List Read) (n : Nat) (d : p7v_decoder_t)
    (res : p7v_result_t) : (read_loop n rs d res).2.2.count Effect.NSS_Shutdown = 0 :=
  count_eq_zero_of_class Effect.streams Effect.NSS_Shutdown rfl _ (read_loop_streams rs n d res)

theorem read_loop_count_finish (rs : List Read) (n : Nat) (d : p7v_decoder_t)
    (res : p7v_result_t) : (read_loop n rs d res).2.2.count Effect.NSS_CMSDecoder_Finish = 0 :=
  count_eq_zero_of_class Effect.streams Effect.NSS_CMSDecoder_Finish rfl _
    (read_loop_streams rs n d res)

theorem read_loop_freed (rs : List Read) (n : Nat) (d : p7v_decoder_t)
    (res : p7v_result_t) : freed_arenas (read_loop n rs d res).2.2 = [] :=
  filterMap_eq_nil_of_class Effect.streams Effect.freed streams_freed _
    (read_loop_streams rs n d res)

theorem read_loop_unlinked (rs : List Read) (n : Nat) (d : p7v_decoder_t)
    (res : p7v_result_t) : unlinked_paths (read_loop n rs d res).2.2 = [] :=
  filterMap_eq_nil_of_class Effect.streams Effect.unlinked streams_unlinked _
    (read_loop_streams rs n d res)

/-- C7, as the code has it.  In a run whose streams open, whose trust store
initialises and whose decoder is set up: when the stream goes through,
`decoder_finish` is called once, and then `NSS_Shutdown` is called once and
the session arena freed once, whatever the decoder's finish, the certificate
imports and the signer verifications yield; when the read loop stops on a
failed decoder update or a failed write, `decoder_finish` is not called, and
neither is `NSS_Shutdown` nor `PORT_FreeArena`. -/
theorem main_cleanup (r : Run)
    (hin : r.input = none ∨ r.fopen_input = true)
    (hout : r.output = none ∨ r.fopen_output = true)
    (hinit : r.nss_init = SECStatus.SECSuccess)
    (harena : r.new_arena ≠ 0) (hctx : r.decoder_start ≠ 0) :
    (stream_ok r.reads →
      (main r).2.count Effect.NSS_CMSDecoder_Finish = 1 ∧
      (main r).2.count Effect.NSS_Shutdown = 1 ∧
      freed_arenas (main r).2 = [r.new_arena]) ∧
    (¬ stream_ok r.reads →
      (main r).2.count Effect.NSS_CMSDecoder_Finish = 0 ∧
      (main r).2.count Effect.NSS_Shutdown = 0 ∧
      freed_arenas (main r).2 = []) := by
  obtain ⟨fin, fout, pre, hpre, _, hmain⟩ := main_opened r hin hout
  have hiff := read_loop_ok_iff r.reads 0 ⟨r.new_arena, fout, 0, r.decoder_start⟩ rfl
  constructor
  · intro hs
    have hl := read_loop_ok r.reads 0 ⟨r.new_arena, fout, 0, r.decoder_start⟩ rfl hs
    obtain ⟨head, closes, tail, hhead, hcloses, htail, hbody⟩ :=
      main_body_finished r fin fout hinit harena hctx hl.1
    rw [hmain, hbody, hl.2]
    have f1 := opens_count_finish pre hpre
    have f2 := opens_count_finish head hhead
    have f3 := opens_count_finish closes hcloses
    have f4 := opens_count_finish tail htail
    have s1 := opens_count_shutdown pre hpre
    have s2 := opens_count_shutdown head hhead
    have s3 := opens_count_shutdown closes hcloses
    have s4 := opens_count_shutdown tail htail
    have a1 := opens_freed_arenas pre hpre
    have a2 := opens_freed_arenas head hhead
    have a3 := opens_freed_arenas closes hcloses
    have a4 := opens_freed_arenas tail htail
    refine ⟨?_, ?_, ?_⟩
    · by_cases hu : (decoder_finish r.verbose ⟨r.new_arena, fout, 0, r.decoder_start⟩
          r.no_verify r.finish).1 ≠ P7V_OK ∧ fout ≠ FILE.stdout <;>
        simp [List.count_append, List.count_cons, f1, f2, f3, f4,
          read_loop_count_finish, decoder_finish_finish, hu]
    · by_cases hu : (decoder_finish r.verbose ⟨r.new_arena, fout, 0, r.decoder_start⟩
          r.no_verify r.finish).1 ≠ P7V_OK ∧ fout ≠ FILE.stdout <;>
        simp [List.count_append, List.count_cons, s1, s2, s3, s4,
          read_loop_count_shutdown, decoder_finish_shutdown, hu]
    · by_cases hu : (decoder_finish r.verbose ⟨r.new_arena, fout, 0, r.decoder_start⟩
          r.no_verify r.finish).1 ≠ P7V_OK ∧ fout ≠ FILE.stdout <;>
        simp [freed_arenas_append, freed_arenas_cons, freed_arenas_nil, a1, a2, a3, a4,
          read_loop_freed, decoder_finish_freed, hu, harena, Effect.freed]
  · intro hs
    have hl : (read_loop 0 r.reads ⟨r.new_arena, fout, 0, r.decoder_start⟩ P7V_OK).1 ≠ P7V_OK :=
      fun h => hs (hiff.1 h)
    obtain ⟨head, closes, tail, hhead, hcloses, htail, hbody⟩ :=
      main_body_aborted r fin fout hinit harena hctx hl
    rw [hmain, hbody]
    have f1 := opens_count_finish pre hpre
    have f2 := opens_count_finish head hhead
    have f3 := opens_count_finish closes hcloses
    have f4 := opens_count_finish tail htail
    have s1 := opens_count_shutdown pre hpre
    have s2 := opens_count_shutdown head hhead
    have s3 := opens_count_shutdown closes hcloses
    have s4 := opens_count_shutdown tail htail
    have a1 := opens_freed_arenas pre hpre
    have a2 := opens_freed_arenas head hhead
    have a3 := opens_freed_arenas closes hcloses
    have a4 := opens_freed_arenas tail htail
    refine ⟨?_, ?_, ?_⟩
    · by_cases hu : fout = FILE.stdout <;>
        simp [List.count_append, List.count_cons, f1, f2, f3, f4,
          read_loop_count_finish, hu]
    · by_cases hu : fout = FILE.stdout <;>
        simp [List.count_append, List.count_cons, s1, s2, s3, s4,
          read_loop_count_shutdown, hu]
    · by_cases hu : fout = FILE.stdout <;>
        simp [freed_arenas_append, freed_arenas_cons, freed_arenas_nil, a1, a2, a3, a4,
          read_loop_freed, hu, Effect.freed]

/-- Counterexample to C7 as stated: the trust store initialises and the arena
is allocated, the first decoder update fails, and the run calls neither
`decoder_finish`, nor `NSS_Shutdown`, nor `PORT_FreeArena`. -/
theorem main_cleanup_counterexample :
    run_feed_failure.nss_init = SECStatus.SECSuccess ∧ run_feed_failure.new_arena ≠ 0 ∧
    (main run_feed_failure).1 = P7V_CMS_DECODER_UPDATE_FAILED ∧
    ¬ ((main run_feed_failure).2.count Effect.NSS_Shutdown = 1) ∧
    ¬ (freed_arenas (main run_feed_failure).2 = [run_feed_failure.new_arena]) ∧
    Effect.NSS_CMSDecoder_Finish ∉ (main run_feed_failure).2 := by
  decide

/-- Witness of C7 as the code has it: a run that ends with a failed signer
verification shuts NSS down once and frees the arena once; a run whose first
decoder update fails does neither. -/
theorem main_cleanup_witness :
    ((main run_bad_signer).1 = P7V_VERIFICATION_FAILED ∧
      (main run_bad_signer).2.count Effect.NSS_CMSDecoder_Finish = 1 ∧
      (main run_bad_signer).2.count Effect.NSS_Shutdown = 1 ∧
      freed_arenas (main run_bad_signer).2 = [run_bad_signer.new_arena]) ∧
    ((main run_feed_failure).2.count Effect.NSS_CMSDecoder_Finish = 0 ∧
      (main run_feed_failure).2.count Effect.NSS_Shutdown = 0 ∧
      freed_arenas (main run_feed_failure).2 = []) :=
  ⟨⟨by decide,
      (main_cleanup run_bad_signer (Or.inl rfl) (Or.inr rfl) rfl (by decide) (by decide)).1
        (by decide)⟩,
    (main_cleanup run_feed_failure (Or.inl rfl) (Or.inr rfl) rfl (by decide) (by decide)).2
      (by decide)⟩

/-- C1 at a failing input: `-o out.bin` is given and opened, the trust store
fails to initialise (or the decoder fails to start), the run ends with
`P7V_NSS_INIT_FAILED` (or `P7V_CMS_DECODER_START_FAILED`), and `out.bin` is not
unlinked. -/
theorem main_setup_error_keeps_output :
    (run_init_failure.output = some "out.bin" ∧ run_init_failure.fopen_output = true ∧
      (main run_init_failure).1 = P7V_NSS_INIT_FAILED ∧
      unlinked_paths (main run_init_failure).2 = []) ∧
    (run_start_failure.output = some "out.bin" ∧ run_start_failure.fopen_output = true ∧
      (main run_start_failure).1 = P7V_CMS_DECODER_START_FAILED ∧
      unlinked_paths (main run_start_failure).2 = []) := by
  decide

/-- C9 at a failing input: with a null arena `decoder_setup` returns whatever
its local `result` held; when that is 0 the caller sees `P7V_OK`, and `main`
goes on to feed the decoder although no session was started. -/
theorem decoder_setup_null_arena (uninit : p7v_result_t) (ctx : Nat) (output : FILE)
    (p_decoder : p7v_decoder_t) :
    (decoder_setup uninit 0 ctx output p_decoder).1 = uninit ∧
    (decoder_setup P7V_OK 0 ctx output p_decoder).1 = P7V_OK ∧
    (decoder_setup uninit 0 ctx output p_decoder).2.1.p_context = p_decoder.p_context ∧
    fed_chunks (main run_no_arena).2 = [0] := by
  refine ⟨rfl, rfl, rfl, ?_⟩
  decide

/-- C10 at a failing input: a callback with `len = 0` has `fwrite` return 0
although the sink took all zero bytes, and `write_error` goes from 0 to 1. -/
theorem content_cb_empty_write (p_decoder : p7v_decoder_t) :
    fwrite 0 1 0 = 0 ∧ (content_cb p_decoder 0 0).1.write_error = 1 ∧
    decoder_ready.write_error = 0 ∧ (content_cb decoder_ready 0 0).1.write_error ≠ 0 := by
  refine ⟨rfl, rfl, rfl, ?_⟩
  decide

/-- A feed that starts with the flag clear returns with the flag set exactly
when one of its content writes has `fwrite` return something other than 1. -/
theorem decoder_feed_write_error (n : Nat) (d : p7v_decoder_t) (c : Read)
    (hd : d.write_error = 0) :
    (decoder_feed n d c).2.1.write_error ≠ 0 ↔ ∃ w ∈ c.writes, fwrite w.1 1 w.2 ≠ 1 := by
  rw [decoder_feed_state]
  by_cases hw : writes_ok c.writes
  · rw [run_callbacks_ok c.writes d hw]
    constructor
    · intro h; exact absurd hd h
    · rintro ⟨w, hmem, hne⟩; exact absurd (hw w hmem) hne
  · rw [run_callbacks_failed c.writes d hw]
    constructor
    · intro _
      by_contra hcon
      exact hw (fun w hmem => by_contra (fun hne => hcon ⟨w, hmem, hne⟩))
    · intro _; decide

/-- C8. Sticky write failure.  Once a content callback has set `write_error`
to 1, the callbacks that follow leave it at 1.  And in a run whose streams
open, whose trust store initialises and whose decoder is set up, let iteration
`pre.length` of the read loop be the first whose `decoder_feed` returns
`P7V_OK` with `write_error` set (the iterations before it that read something
have their update and all their writes succeed; this one has its update
succeed and one of its writes fail).  Then no later chunk is fed and the run
ends with `P7V_OUTPUT_WRITE_FAILED`. -/
theorem write_failure_sticky (r : Run) (pre post : List Read) (c : Read)
    (hin : r.input = none ∨ r.fopen_input = true)
    (hout : r.output = none ∨ r.fopen_output = true)
    (hinit : r.nss_init = SECStatus.SECSuccess)
    (harena : r.new_arena ≠ 0) (hctx : r.decoder_start ≠ 0)
    (hreads : r.reads = pre ++ c :: post)
    (hpre : ∀ x ∈ pre, 0 < x.r →
      x.update = SECStatus.SECSuccess ∧ ∀ w ∈ x.writes, fwrite w.1 1 w.2 = 1)
    (hr : 0 < c.r) (hu : c.update = SECStatus.SECSuccess)
    (hw : ∃ w ∈ c.writes, fwrite w.1 1 w.2 ≠ 1) :
    (∀ (d : p7v_decoder_t) (ws1 ws2 : List (Nat × Nat)),
      (run_callbacks d ws1).1.write_error = 1 →
      (run_callbacks d (ws1 ++ ws2)).1.write_error = 1) ∧
    (∀ x ∈ pre, 0 < x.r → ∀ (n : Nat) (d : p7v_decoder_t), d.write_error = 0 →
      (decoder_feed n d x).1 = P7V_OK ∧ (decoder_feed n d x).2.1.write_error = 0) ∧
    (∀ (n : Nat) (d : p7v_decoder_t), d.write_error = 0 →
      (decoder_feed n d c).1 = P7V_OK ∧ (decoder_feed n d c).2.1.write_error ≠ 0) ∧
    (main r).1 = P7V_OUTPUT_WRITE_FAILED ∧
    pre.length ∈ fed_chunks (main r).2 ∧
    (∀ n ∈ fed_chunks (main r).2, n ≤ pre.length) := by
  have hpre2 : stream_ok pre := hpre
  have hw2 : ¬ writes_ok c.writes := by
    obtain ⟨w, hmem, hne⟩ := hw
    exact fun h => hne (h w hmem)
  refine ⟨?_, ?_, ?_, ?_⟩
  · intro d ws1 ws2 h
    rw [run_callbacks_append]
    exact run_callbacks_sticky ws2 _ h
  · intro x hx hxr n d hd
    have hxo := hpre x hx hxr
    refine ⟨by simp [decoder_feed_result, hxo.1], ?_⟩
    rw [decoder_feed_state, run_callbacks_ok x.writes d hxo.2]
    exact hd
  · intro n d hd
    exact ⟨by simp [decoder_feed_result, hu], (decoder_feed_write_error n d c hd).2 hw⟩
  · obtain ⟨fin, fout, opening, hopening, _, hmain⟩ := main_opened r hin hout
    have hfail : (run_callbacks ⟨r.new_arena, fout, 0, r.decoder_start⟩ c.writes).1.write_error
        ≠ 0 := by
      rw [run_callbacks_failed c.writes _ hw2]; decide
    have hloop : read_loop 0 r.reads ⟨r.new_arena, fout, 0, r.decoder_start⟩ P7V_OK =
        (P7V_OUTPUT_WRITE_FAILED,
          (run_callbacks ⟨r.new_arena, fout, 0, r.decoder_start⟩ c.writes).1,
          (read_loop 0 pre ⟨r.new_arena, fout, 0, r.decoder_start⟩ P7V_OK).2.2 ++
            Effect.fread pre.length ::
              (decoder_feed pre.length ⟨r.new_arena, fout, 0, r.decoder_start⟩ c).2.2) := by
      rw [hreads, read_loop_append pre (c :: post) 0 _ rfl hpre2, Nat.zero_add,
        read_loop_cons_write_failed pre.length c post _ P7V_OK hr hu hfail]
    have hl : (read_loop 0 r.reads ⟨r.new_arena, fout, 0, r.decoder_start⟩ P7V_OK).1 ≠ P7V_OK := by
      rw [hloop]
      exact (by decide : P7V_OUTPUT_WRITE_FAILED ≠ P7V_OK)
    obtain ⟨head, closes, tail, hhead, hcloses, htail, hbody⟩ :=
      main_body_aborted r fin fout hinit harena hctx hl
    have hfed : fed_chunks (main r).2 =
        fed_chunks (read_loop 0 pre ⟨r.new_arena, fout, 0, r.decoder_start⟩ P7V_OK).2.2 ++
          [pre.length] := by
      rw [hmain, hbody, hloop]
      have e1 := opens_fed_chunks opening hopening
      have e2 := opens_fed_chunks head hhead
      have e3 := opens_fed_chunks closes hcloses
      have e4 := opens_fed_chunks tail htail
      by_cases hstd : fout = FILE.stdout <;>
        simp [fed_chunks_append, fed_chunks_cons, fed_chunks_nil, e1, e2, e3, e4,
          decoder_feed_fed, Effect.fed, hstd]
    refine ⟨?_, ?_, ?_⟩
    · rw [hmain, hbody, hloop]
    · rw [hfed]
      exact List.mem_append_right _ (List.mem_singleton_self _)
    · intro n hn
      rw [hfed, List.mem_append, List.mem_singleton] at hn
      rcases hn with hn | hn
      · have := read_loop_fed_bound pre 0 _ _ n hn
        omega
      · omega

/-- Witness of C8: the second of three chunks has its write cut short; the
third chunk is never fed and the run ends with `P7V_OUTPUT_WRITE_FAILED`. -/
theorem write_failure_sticky_witness :
    (main run_write_failure).1 = P7V_OUTPUT_WRITE_FAILED ∧
    [read_good].length ∈ fed_chunks (main run_write_failure).2 ∧
    (∀ n ∈ fed_chunks (main run_write_failure).2, n ≤ [read_good].length) :=
  (write_failure_sticky run_write_failure [read_good] [read_good] read_short_write
    (Or.inl rfl) (Or.inr rfl) rfl (by decide) (by decide) rfl (by decide) (by decide) rfl
    (by decide)).2.2.2

/-! ## What holds around the failing inputs -/

/-- For a non-empty write the callback does as intended: the flag is left
alone when the sink takes all `len` bytes, and whatever `len` is the flag is 1
after the sink takes fewer. -/
theorem content_cb_records (d : p7v_decoder_t) (len accepted : Nat) :
    (0 < len → accepted = len → (content_cb d len accepted).1 = d) ∧
    (accepted < len → (content_cb d len accepted).1.write_error = 1) := by
  constructor
  · intro hlen hacc
    apply content_cb_ok
    subst hacc
    have : accepted ≠ 0 := by omega
    simp [fwrite, this, Nat.div_self hlen]
  · intro hlt
    apply content_cb_failed
    have h0 : len ≠ 0 := by omega
    simp [fwrite, h0, Nat.div_eq_of_lt hlt]

/-- The results of `decoder_setup`: `P7V_OK` when both allocations succeed,
`P7V_CMS_DECODER_START_FAILED` when only the arena is allocated. -/
theorem decoder_setup_result (uninit : p7v_result_t) (arena ctx : Nat) (output : FILE)
    (p_decoder : p7v_decoder_t) (harena : arena ≠ 0) :
    (ctx ≠ 0 → decoder_setup uninit arena ctx output p_decoder =
      (P7V_OK, ⟨arena, output, 0, ctx⟩,
        [Effect.PORT_NewArena, Effect.NSS_CMSDecoder_Start arena])) ∧
    (ctx = 0 → (decoder_setup uninit arena ctx output p_decoder).1 =
      P7V_CMS_DECODER_START_FAILED) := by
  constructor
  · intro hctx; simp [decoder_setup, harena, hctx]
  · intro hctx; simp [decoder_setup, harena, hctx]

/-- Once the decoder is set up, the output path is unlinked exactly when it was
given by the caller and the run does not end with `P7V_OK`. -/
theorem main_unlinked (r : Run)
    (hin : r.input = none ∨ r.fopen_input = true)
    (hout : r.output = none ∨ r.fopen_output = true)
    (hinit : r.nss_init = SECStatus.SECSuccess)
    (harena : r.new_arena ≠ 0) (hctx : r.decoder_start ≠ 0) :
    unlinked_paths (main r).2 =
      if (main r).1 ≠ P7V_OK ∧ r.output ≠ none then [r.output] else [] := by
  obtain ⟨fin, fout, opening, hopening, hstd, hmain⟩ := main_opened r hin hout
  have u1 := opens_unlinked_paths opening hopening
  by_cases hl : (read_loop 0 r.reads ⟨r.new_arena, fout, 0, r.decoder_start⟩ P7V_OK).1 = P7V_OK
  · obtain ⟨head, closes, tail, hhead, hcloses, htail, hbody⟩ :=
      main_body_finished r fin fout hinit harena hctx hl
    have u2 := opens_unlinked_paths head hhead
    have u3 := opens_unlinked_paths closes hcloses
    have u4 := opens_unlinked_paths tail htail
    rw [hmain, hbody]
    by_cases hF : (decoder_finish r.verbose
        (read_loop 0 r.reads ⟨r.new_arena, fout, 0, r.decoder_start⟩ P7V_OK).2.1
        r.no_verify r.finish).1 = P7V_OK <;> by_cases hs : fout = FILE.stdout <;>
      simp [unlinked_paths_append, unlinked_paths_cons, unlinked_paths_nil, u1, u2, u3, u4,
        read_loop_unlinked, decoder_finish_unlinked, Effect.unlinked, hF, hs, ← hstd]
  · obtain ⟨head, closes, tail, hhead, hcloses, htail, hbody⟩ :=
      main_body_aborted r fin fout hinit harena hctx hl
    have u2 := opens_unlinked_paths head hhead
    have u3 := opens_unlinked_paths closes hcloses
    have u4 := opens_unlinked_paths tail htail
    rw [hmain, hbody]
    by_cases hs : fout = FILE.stdout <;>
      simp [unlinked_paths_append, unlinked_paths_cons, unlinked_paths_nil, u1, u2, u3, u4,
        read_loop_unlinked, Effect.unlinked, hl, hs, ← hstd]

theorem decoder_setup_opens (uninit : p7v_result_t) (arena ctx : Nat) (output : FILE)
    (p_decoder : p7v_decoder_t) :
    ∀ e ∈ (decoder_setup uninit arena ctx output p_decoder).2.2, e.opens = true := by
  intro e he
  by_cases ha : arena = 0 <;> by_cases hc : ctx = 0 <;>
    simp [decoder_setup, ha, hc] at he <;> rcases he with rfl | rfl <;> rfl

theorem init_opens (sts : SECStatus) : ∀ e ∈ (init sts).2, e.opens = true := by
  intro e he
  simp [init] at he
  rcases he with rfl | rfl <;> rfl

/-- The rest of a run that writes to standard output unlinks nothing, whatever
happens. -/
theorem main_body_stdout_unlinked (r : Run) (fin : FILE) :
    unlinked_paths (main_body r fin FILE.stdout).2 = [] := by
  have u1 := opens_unlinked_paths _ (init_opens r.nss_init)
  have u2 := opens_unlinked_paths _ (decoder_setup_opens r.uninit_result r.new_arena
    r.decoder_start FILE.stdout r.uninit_decoder)
  have u3 : ∀ msg, unlinked_paths (when_verbose r.verbose msg) = [] :=
    fun msg => opens_unlinked_paths _ (when_verbose_opens r.verbose msg)
  unfold main_body
  generalize decoder_setup r.uninit_result r.new_arena r.decoder_start FILE.stdout
    r.uninit_decoder = s at u2 ⊢
  obtain ⟨res, d, t⟩ := s
  by_cases hi : (init r.nss_init).1 = P7V_OK
  · by_cases hs : res = P7V_OK
    · subst hs
      by_cases hl : (read_loop 0 r.reads d P7V_OK).1 = P7V_OK
      · by_cases hf : (decoder_finish r.verbose (read_loop 0 r.reads d P7V_OK).2.1
            r.no_verify r.finish).1 = P7V_OK <;> by_cases hfin : fin = FILE.stdin <;>
          simp [hi, hl, hf, hfin, unlinked_paths_append, unlinked_paths_cons,
            unlinked_paths_nil, u1, u2, u3, read_loop_unlinked, decoder_finish_unlinked,
            Effect.unlinked]
      · by_cases hfin : fin = FILE.stdin <;>
          simp [hi, hl, hfin, unlinked_paths_append, unlinked_paths_cons,
            unlinked_paths_nil, u1, u2, u3, read_loop_unlinked, Effect.unlinked]
    · simp [hi, hs, unlinked_paths_append, unlinked_paths_cons, unlinked_paths_nil, u1, u2, u3,
        Effect.unlinked]
  · simp [hi, unlinked_paths_append, unlinked_paths_cons, unlinked_paths_nil, u1,
      Effect.unlinked]

/-- A run that writes to standard output never unlinks anything. -/
theorem main_stdout_unlinked (r : Run) (h : r.output = none) :
    unlinked_paths (main r).2 = [] := by
  have u0 := opens_unlinked_paths _ (when_verbose_opens r.verbose Diag.version)
  have u1 := opens_unlinked_paths _ (open_input_opens r)
  have ho : open_output r = (some FILE.stdout, []) := by simp [open_output, h]
  unfold main
  cases hi : (open_input r).1 with
  | none => simp [hi, unlinked_paths_append, u0, u1]
  | some fin =>
    simp [hi, ho, unlinked_paths_append, unlinked_paths_nil, u0, u1, main_body_stdout_unlinked]

end P7V
